import Mathlib

/-!
Verification of the learning-science audit tool's core pipeline.

This file gives a shallow embedding, in Lean, of the section-classification
and scoring-aggregation pipeline of the repository:

* `src/data/upfrontQuestions.ts` — section classifier (`detectSectionType`),
  distinct-type collection (`getSectionTypes`), question relevance filters
  (`getRelevantQuestions`), applicability filter (`getApplicablePrincipleIds`);
* `src/data/followUpQuestions` bank — `getRelevantFollowUpPrinciples`;
* `src/data/auditPrompts.ts` — the principle catalog `auditData`;
* `src/data/missingFlowsData.ts` — `getMissingFlowRecommendations`;
* `src/pages/api/analyze.ts` — `buildPrompt` and the not-applicable merge
  step of the `POST` handler;
* `AuditTool.tsx` — score aggregation (`combinedAiScores`), results
  derivation (`resultsOf`), the section analysis loop, follow-up refinement
  completion, and the legacy share-link encoding/decoding.

Strings are embedded as Lean `String`s; where character-level reasoning is
needed (substring matching, lowercasing) we work on the list of code points
(`List Nat`, via `Char.toNat`), which coincides with JavaScript string
semantics on the ASCII text involved.  JavaScript `Record`s (objects used as
maps) are embedded as association lists in key insertion order, with
`recordLookup` / `recordSet` mirroring property access and assignment.
-/

namespace LearningAudit

/-! ## String code-point utilities -/

/-- The code points of a string, the view on which the classifier's regular
expression tests are modelled. -/
def codes (s : String) : List Nat := s.data.map Char.toNat

/-- ASCII lowercasing of one code point; agrees with JavaScript
`toLowerCase` on the ASCII characters used by the classifier patterns. -/
def lowerCode (n : Nat) : Nat := if 65 ≤ n ∧ n ≤ 90 then n + 32 else n

/-- `isPrefixCodes p l` holds when `p` is a prefix of `l`. -/
def isPrefixCodes : List Nat → List Nat → Bool
  | [], _ => true
  | _ :: _, [] => false
  | a :: asRest, b :: bs => a == b && isPrefixCodes asRest bs

/-- `hasSubstr pat l` holds when `pat` occurs contiguously inside `l`;
this models a JavaScript regular-expression test for a literal pattern
(`pattern.test(string)`), and `String.prototype.includes`. -/
def hasSubstr (pat : List Nat) : List Nat → Bool
  | [] => pat.isEmpty
  | c :: rest => isPrefixCodes pat (c :: rest) || hasSubstr pat rest

/-- Some pattern in `pats` occurs in `l`: the embedding of an alternation
regular expression `/p1|p2|.../.test(l)`. -/
def matchesAny (pats : List String) (l : List Nat) : Bool :=
  pats.any fun p => hasSubstr (codes p) l

/-! ## JavaScript `Record` embedding

Objects used as string-keyed maps are association lists in key insertion
order.  `recordLookup` is property access (`m[k]`, `undefined` ↦ `none`);
`recordSet` is property assignment (`m[k] = v`): an existing key is updated
in place, a new key is appended. -/

/-- Property access `m[k]`. -/
def recordLookup {α : Type} (m : List (String × α)) (k : String) : Option α :=
  (m.find? fun e => e.1 == k).map (·.2)

/-- Property assignment `m[k] = v`. -/
def recordSet {α : Type} (m : List (String × α)) (k : String) (v : α) :
    List (String × α) :=
  if (m.find? fun e => e.1 == k).isSome then
    m.map fun e => if e.1 == k then (k, v) else e
  else
    m ++ [(k, v)]

/-- The keys of a record, in insertion order (`Object.keys`). -/
def recordKeys {α : Type} (m : List (String × α)) : List String := m.map (·.1)

/-! ## Section types (`SectionType` union in `upfrontQuestions.ts`) -/

/-- The closed union
`'quiz' | 'pre-quiz' | 'post-quiz' | 'lesson' | 'practice' | 'review' | 'onboarding' | 'overall'`. -/
inductive SectionType where
  | quiz
  | preQuiz
  | postQuiz
  | lesson
  | practice
  | review
  | onboarding
  | overall
deriving DecidableEq, Repr

/-- The string value of a `SectionType` in the source. -/
def SectionType.str : SectionType → String
  | .quiz => "quiz"
  | .preQuiz => "pre-quiz"
  | .postQuiz => "post-quiz"
  | .lesson => "lesson"
  | .practice => "practice"
  | .review => "review"
  | .onboarding => "onboarding"
  | .overall => "overall"

/-! ## Section classifier (`detectSectionType`)

Each regular expression in the source is an alternation of literal words,
except for the `pre[- ]?(...)` / `post[- ]?(...)` groups, which expand to
the literal alternatives listed below. -/

/-- `/pre[- ]?(lesson|quiz|test|assessment)|diagnostic|baseline|placement/` -/
def preQuizPatterns : List String :=
  [ "prelesson", "pre-lesson", "pre lesson"
  , "prequiz", "pre-quiz", "pre quiz"
  , "pretest", "pre-test", "pre test"
  , "preassessment", "pre-assessment", "pre assessment"
  , "diagnostic", "baseline", "placement" ]

/-- `/post[- ]?(lesson|quiz|test|assessment)|final|summative/` -/
def postQuizPatterns : List String :=
  [ "postlesson", "post-lesson", "post lesson"
  , "postquiz", "post-quiz", "post quiz"
  , "posttest", "post-test", "post test"
  , "postassessment", "post-assessment", "post assessment"
  , "final", "summative" ]

/-- `/quiz|test|assessment|exam|check|question/` -/
def quizPatterns : List String :=
  ["quiz", "test", "assessment", "exam", "check", "question"]

/-- `/practice|exercise|activity|game|drill|challenge/` -/
def practicePatterns : List String :=
  ["practice", "exercise", "activity", "game", "drill", "challenge"]

/-- `/review|summary|recap|revisit|refresh/` -/
def reviewPatterns : List String :=
  ["review", "summary", "recap", "revisit", "refresh"]

/-- `/onboard|welcome|intro|getting started|tutorial/` -/
def onboardingPatterns : List String :=
  ["onboard", "welcome", "intro", "getting started", "tutorial"]

/-- `/lesson|instruction|content|learn|module|video|lecture|read/` -/
def lessonPatterns : List String :=
  ["lesson", "instruction", "content", "learn", "module", "video", "lecture", "read"]

/-- The classifier on lowercased code points: the ordered `if` chain of
`detectSectionType` after `sectionName.toLowerCase()`. -/
def detectCodes (name : List Nat) : SectionType :=
  if matchesAny preQuizPatterns name then .preQuiz
  else if matchesAny postQuizPatterns name then .postQuiz
  else if matchesAny quizPatterns name then .quiz
  else if matchesAny practicePatterns name then .practice
  else if matchesAny reviewPatterns name then .review
  else if matchesAny onboardingPatterns name then .onboarding
  else if matchesAny lessonPatterns name then .lesson
  else .lesson

/-- `detectSectionType(sectionName)` from `upfrontQuestions.ts`. -/
def detectSectionType (sectionName : String) : SectionType :=
  detectCodes ((codes sectionName).map lowerCode)

/-- `getSectionTypes(sectionNames)`: the distinct classifications in
first-encounter order (a JavaScript `Set` built by insertion, then
`Array.from`). -/
def getSectionTypes (sectionNames : List String) : List SectionType :=
  sectionNames.foldl
    (fun types name =>
      let t := detectSectionType name
      if types.contains t then types else types ++ [t])
    []

/-! ## Upfront clarifying questions (`upfrontQuestions.ts`) -/

structure UpfrontQuestionOption where
  value : String
  label : String
  scoringHint : String
deriving DecidableEq

structure UpfrontQuestion where
  id : String
  principleIds : List String
  question : String
  options : List UpfrontQuestionOption
  freeTextPrompt : String
  appliesTo : List SectionType
deriving DecidableEq

/-- The `upfrontQuestions` bank. -/
def upfrontQuestions : List UpfrontQuestion :=
  [ { id := "spaced-learning"
    , principleIds := ["spaced-repetition"]
    , question := "How does your learning experience handle review and repetition over time?"
    , appliesTo := [.overall, .review]
    , options :=
      [ { value := "none"
        , label := "Learning happens in a single session with no planned follow-up"
        , scoringHint := "No spaced repetition implemented - score 1" }
      , { value := "manual-review"
        , label := "Users can return to review content, but timing is up to them"
        , scoringHint := "Minimal spacing - user-directed only - score 2" }
      , { value := "reminders"
        , label := "The system sends reminders or notifications to return and practice"
        , scoringHint := "Some spaced repetition via reminders - score 3" }
      , { value := "scheduled-review"
        , label := "Content automatically resurfaces for review at set intervals"
        , scoringHint := "Structured spaced repetition with fixed intervals - score 4" }
      , { value := "adaptive-spacing"
        , label := "Review timing adapts based on how well the user remembered content"
        , scoringHint := "Adaptive spaced repetition (e.g., SM-2 algorithm) - score 5" } ]
    , freeTextPrompt := "Describe any other spacing or review features:" }
  , { id := "quiz-feedback"
    , principleIds := ["retrieval-practice", "elaboration"]
    , question := "What kind of feedback do learners receive on quiz questions?"
    , appliesTo := [.quiz, .preQuiz, .postQuiz]
    , options :=
      [ { value := "none"
        , label := "No feedback - just a final score"
        , scoringHint := "No feedback on individual questions - retrieval practice score 2, elaboration score 1" }
      , { value := "correct-incorrect"
        , label := "Shows whether each answer was correct or incorrect"
        , scoringHint := "Basic correctness feedback - retrieval practice score 3, elaboration score 2" }
      , { value := "correct-answer"
        , label := "Shows the correct answer after incorrect responses"
        , scoringHint := "Answer revelation feedback - retrieval practice score 3-4, elaboration score 2-3" }
      , { value := "explanation"
        , label := "Explains WHY the answer is correct or incorrect"
        , scoringHint := "Explanatory feedback - retrieval practice score 4, elaboration score 4" }
      , { value := "adaptive-explanation"
        , label := "Provides personalized explanations based on the specific mistake"
        , scoringHint := "Adaptive explanatory feedback - retrieval practice score 5, elaboration score 5" } ]
    , freeTextPrompt := "Describe the feedback learners receive:" }
  , { id := "quiz-randomization"
    , principleIds := ["interleaving", "desirable-difficulties"]
    , question := "How are questions presented in this quiz?"
    , appliesTo := [.quiz, .postQuiz]
    , options :=
      [ { value := "fixed"
        , label := "Same questions in the same order every time"
        , scoringHint := "Fixed question order - interleaving score 1-2" }
      , { value := "shuffled"
        , label := "Question order is randomized"
        , scoringHint := "Randomized order - interleaving score 3" }
      , { value := "pool"
        , label := "Questions are drawn from a larger pool"
        , scoringHint := "Question pool with variation - interleaving score 3-4" }
      , { value := "mixed-topics"
        , label := "Questions from different topics are mixed together"
        , scoringHint := "Topic interleaving within quiz - interleaving score 4" }
      , { value := "adaptive-selection"
        , label := "Questions are selected based on learner performance"
        , scoringHint := "Adaptive question selection - interleaving score 4-5, desirable-difficulties score 4-5" } ]
    , freeTextPrompt := "Describe how questions are selected or ordered:" }
  , { id := "practice-difficulty"
    , principleIds := ["deliberate-practice", "desirable-difficulties"]
    , question := "How does difficulty progress in practice activities?"
    , appliesTo := [.practice]
    , options :=
      [ { value := "fixed"
        , label := "Same difficulty throughout"
        , scoringHint := "No difficulty progression - deliberate-practice score 1-2" }
      , { value := "user-selected"
        , label := "User chooses difficulty level"
        , scoringHint := "User-controlled difficulty - deliberate-practice score 2-3" }
      , { value := "linear"
        , label := "Difficulty increases as user progresses"
        , scoringHint := "Linear difficulty progression - deliberate-practice score 3" }
      , { value := "adaptive"
        , label := "Difficulty adjusts based on performance"
        , scoringHint := "Adaptive difficulty - deliberate-practice score 4" }
      , { value := "targeted"
        , label := "System targets weak areas with appropriate challenge"
        , scoringHint := "Targeted practice at edge of ability - deliberate-practice score 5" } ]
    , freeTextPrompt := "Describe how difficulty is managed:" }
  , { id := "practice-mixing"
    , principleIds := ["interleaving"]
    , question := "How are different skills or topics mixed in practice?"
    , appliesTo := [.practice]
    , options :=
      [ { value := "blocked"
        , label := "One skill/topic at a time until mastered"
        , scoringHint := "Blocked practice - interleaving score 1-2" }
      , { value := "sequential"
        , label := "Topics introduced one at a time but occasionally revisited"
        , scoringHint := "Sequential with some review - interleaving score 2-3" }
      , { value := "mixed"
        , label := "Multiple topics/skills mixed within sessions"
        , scoringHint := "Interleaved practice - interleaving score 3-4" }
      , { value := "randomized"
        , label := "Random mixing of topics - learner can\x27t predict what\x27s next"
        , scoringHint := "Randomized interleaving - interleaving score 4" }
      , { value := "cumulative"
        , label := "All previously learned topics can appear at any time"
        , scoringHint := "Cumulative interleaving - interleaving score 5" } ]
    , freeTextPrompt := "Describe how topics are mixed in practice:" }
  , { id := "lesson-pacing"
    , principleIds := ["cognitive-load-theory", "chunking"]
    , question := "How is content paced and chunked in lessons?"
    , appliesTo := [.lesson]
    , options :=
      [ { value := "continuous"
        , label := "Content flows continuously without breaks"
        , scoringHint := "No chunking or pacing control - cognitive-load score 2, chunking score 1-2" }
      , { value := "sections"
        , label := "Content is divided into sections but auto-advances"
        , scoringHint := "Some structure but no user control - cognitive-load score 3, chunking score 3" }
      , { value := "self-paced"
        , label := "Learner controls when to move to next section"
        , scoringHint := "Self-paced with chunks - cognitive-load score 4, chunking score 4" }
      , { value := "interactive-chunks"
        , label := "Small chunks with interactions/checks between them"
        , scoringHint := "Interactive chunking - cognitive-load score 4-5, chunking score 4-5" }
      , { value := "adaptive-pacing"
        , label := "Pacing adapts based on learner comprehension"
        , scoringHint := "Adaptive pacing - cognitive-load score 5, chunking score 5" } ]
    , freeTextPrompt := "Describe how content is paced:" }
  , { id := "lesson-elaboration"
    , principleIds := ["elaboration", "self-explanation"]
    , question := "How does the lesson encourage deeper processing?"
    , appliesTo := [.lesson]
    , options :=
      [ { value := "passive"
        , label := "Content is presented for passive consumption (reading/watching)"
        , scoringHint := "Passive learning only - elaboration score 1-2, self-explanation score 1" }
      , { value := "examples"
        , label := "Includes worked examples showing how concepts apply"
        , scoringHint := "Examples provided - elaboration score 2-3, self-explanation score 2" }
      , { value := "questions"
        , label := "Asks comprehension questions throughout"
        , scoringHint := "Embedded questions - elaboration score 3, self-explanation score 3" }
      , { value := "explain-prompts"
        , label := "Prompts learners to explain concepts in their own words"
        , scoringHint := "Self-explanation prompts - elaboration score 4, self-explanation score 4" }
      , { value := "generation"
        , label := "Learners must generate examples or explanations before seeing answers"
        , scoringHint := "Generation before instruction - elaboration score 5, self-explanation score 5" } ]
    , freeTextPrompt := "Describe how learners engage with content:" }
  , { id := "onboarding-efficacy"
    , principleIds := ["self-efficacy", "growth-mindset"]
    , question := "How does onboarding build learner confidence?"
    , appliesTo := [.onboarding]
    , options :=
      [ { value := "none"
        , label := "Jumps straight into content without confidence building"
        , scoringHint := "No confidence scaffolding - self-efficacy score 1-2" }
      , { value := "overview"
        , label := "Provides an overview of what will be learned"
        , scoringHint := "Goal orientation only - self-efficacy score 2-3" }
      , { value := "easy-wins"
        , label := "Starts with easy tasks to build early success"
        , scoringHint := "Early wins for confidence - self-efficacy score 4" }
      , { value := "personalized"
        , label := "Assesses prior knowledge and starts at appropriate level"
        , scoringHint := "Personalized starting point - self-efficacy score 4-5" }
      , { value := "growth-framing"
        , label := "Explicitly frames learning as growth, normalizes mistakes"
        , scoringHint := "Growth mindset framing - self-efficacy score 5, growth-mindset score 4-5" } ]
    , freeTextPrompt := "Describe how onboarding builds confidence:" } ]

/-- `getRelevantQuestions(sectionNames)`: keep a question when it applies to
one of the detected section types, or when it is an `overall` question and
more than one distinct type was detected. -/
def getRelevantQuestions (sectionNames : List String) : List UpfrontQuestion :=
  let types := getSectionTypes sectionNames
  let includeOverall := decide (types.length > 1)
  upfrontQuestions.filter fun q =>
    let matchesSectionType := q.appliesTo.any fun t => types.contains t
    let isOverallQuestion := q.appliesTo.contains .overall
    matchesSectionType || (includeOverall && isOverallQuestion)

/-- `getApplicablePrincipleIds(sectionType, allPrincipleIds, principleAppliesTo)`:
a principle applies when its `appliesTo` set is missing or empty (wildcard)
or contains the section type. -/
def getApplicablePrincipleIds (sectionType : SectionType)
    (allPrincipleIds : List String)
    (principleAppliesTo : List (String × List SectionType)) : List String :=
  allPrincipleIds.filter fun id =>
    match recordLookup principleAppliesTo id with
    | none => true
    | some appliesTo => appliesTo.isEmpty || appliesTo.contains sectionType

/-! ## Follow-up question bank (`followUpQuestions`) -/

structure FollowUpQuestionData where
  options : List String
  freeTextPrompt : String
  appliesTo : List SectionType
deriving DecidableEq

/-- The `followUpQuestions` record, keyed by principle id. -/
def followUpQuestions : List (String × FollowUpQuestionData) :=
  [ ( "spaced-repetition"
    , { options :=
        [ "Users receive reminders or notifications to return and review"
        , "Previously learned content reappears in later sessions"
        , "There is a dedicated review or practice mode users can access anytime"
        , "The app tracks performance and resurfaces content users struggled with"
        , "Review intervals are based on how well users remembered content" ]
      , freeTextPrompt := "Describe any spaced learning or review features not visible in the screenshots:"
      , appliesTo := [.review, .overall] } )
  , ( "retrieval-practice"
    , { options :=
        [ "Users must recall answers before seeing them (not just recognize from options)"
        , "Quizzes or knowledge checks are included throughout the experience"
        , "Flashcards or recall-based exercises are available"
        , "Users type, speak, or write answers from memory"
        , "Practice questions require applying knowledge, not just recognition" ]
      , freeTextPrompt := "Describe any recall-based or retrieval activities:"
      , appliesTo := [.quiz, .preQuiz, .postQuiz, .practice, .review] } )
  , ( "elaboration"
    , { options :=
        [ "Users are prompted to explain concepts in their own words"
        , "\"Why\" and \"how\" questions are asked throughout the content"
        , "Learners connect new information to things they already know"
        , "Reflection or journaling prompts are included"
        , "Users teach or explain concepts to others (peers, AI, etc.)" ]
      , freeTextPrompt := "Describe how learners are encouraged to explain or elaborate on content:"
      , appliesTo := [.quiz, .preQuiz, .postQuiz, .lesson, .practice] } )
  , ( "interleaving"
    , { options :=
        [ "Different topics or problem types are mixed within practice sessions"
        , "Questions from previous lessons appear alongside new content"
        , "Users cannot predict which type of problem will come next"
        , "Related but distinct concepts are compared side-by-side"
        , "Practice requires choosing which strategy or approach to use" ]
      , freeTextPrompt := "Describe how different topics or skills are mixed in practice:"
      , appliesTo := [.quiz, .postQuiz, .practice, .review] } )
  , ( "desirable-difficulties"
    , { options :=
        [ "Learners must generate answers before seeing solutions"
        , "Content intentionally includes productive struggle or challenge"
        , "Hints are available but not given automatically"
        , "Practice gets harder as learners improve"
        , "Learners work through difficulties before receiving help" ]
      , freeTextPrompt := "Describe any intentional challenges designed to improve long-term learning:"
      , appliesTo := [.quiz, .postQuiz, .practice] } )
  , ( "deliberate-practice"
    , { options :=
        [ "The system identifies specific skills or knowledge gaps"
        , "Practice focuses on areas where the learner is weakest"
        , "Immediate, specific feedback is provided on performance"
        , "Difficulty adjusts based on individual learner performance"
        , "Learners can target specific skills they want to improve" ]
      , freeTextPrompt := "Describe how practice targets individual weaknesses:"
      , appliesTo := [.practice] } )
  , ( "cognitive-load-theory"
    , { options :=
        [ "Complex information is broken into smaller, sequential steps"
        , "Extraneous or decorative elements have been minimized"
        , "Text and visuals are integrated (not separated)"
        , "Worked examples show step-by-step solutions"
        , "Learners can control the pace of information delivery" ]
      , freeTextPrompt := "Describe how you manage complexity for learners:"
      , appliesTo := [.quiz, .preQuiz, .postQuiz, .lesson, .practice, .onboarding] } )
  , ( "chunking"
    , { options :=
        [ "Content is organized into clear modules, units, or sections"
        , "Related information is grouped together meaningfully"
        , "Progress indicators show where learners are in the overall structure"
        , "Each chunk can be completed in a reasonable amount of time"
        , "Summaries or overviews help learners see how pieces connect" ]
      , freeTextPrompt := "Describe how content is organized and grouped:"
      , appliesTo := [.lesson, .onboarding] } )
  , ( "growth-mindset"
    , { options :=
        [ "Feedback emphasizes effort and strategy, not just correctness"
        , "Mistakes are framed as learning opportunities"
        , "Messaging encourages persistence through challenges"
        , "Success stories highlight growth and improvement over time"
        , "Language avoids fixed-ability labels (smart, talented, etc.)" ]
      , freeTextPrompt := "Describe messaging or feedback that promotes a growth mindset:"
      , appliesTo := [.quiz, .preQuiz, .postQuiz, .lesson, .practice, .onboarding] } )
  , ( "self-efficacy"
    , { options :=
        [ "Early tasks are designed to be achievable for beginners"
        , "Difficulty gradually increases as skills develop"
        , "Positive feedback celebrates progress and achievements"
        , "Learners can see examples of others succeeding"
        , "There are clear indicators of progress and improvement" ]
      , freeTextPrompt := "Describe how you build learner confidence:"
      , appliesTo := [.quiz, .preQuiz, .postQuiz, .lesson, .practice, .onboarding] } )
  , ( "metacognition"
    , { options :=
        [ "Learners are prompted to plan before starting a task"
        , "Self-assessment or confidence ratings are collected"
        , "Reflection prompts ask learners what they learned"
        , "Learners can see their own performance patterns over time"
        , "Prompts help learners identify what they know vs. don\x27t know" ]
      , freeTextPrompt := "Describe how learners monitor or reflect on their own learning:"
      , appliesTo := [.quiz, .preQuiz, .postQuiz, .lesson, .practice, .review] } )
  , ( "self-explanation"
    , { options :=
        [ "Learners are asked to explain their reasoning for answers"
        , "Prompts ask \"why\" an answer is correct or incorrect"
        , "Learners articulate steps in a process or solution"
        , "Explanations are required before moving forward"
        , "Learners compare their reasoning to expert explanations" ]
      , freeTextPrompt := "Describe how learners explain content to themselves:"
      , appliesTo := [.quiz, .preQuiz, .postQuiz, .lesson, .practice] } )
  , ( "transfer-of-learning"
    , { options :=
        [ "The same concept is shown in multiple different contexts"
        , "Underlying principles or patterns are made explicit"
        , "Learners apply knowledge to novel or real-world scenarios"
        , "Examples vary in surface features while sharing deep structure"
        , "Connections to other domains or applications are highlighted" ]
      , freeTextPrompt := "Describe how learners apply knowledge to new contexts:"
      , appliesTo := [.lesson, .practice, .overall] } ) ]

/-- `getRelevantFollowUpPrinciples(principleIds, sectionNames)`: same
relevance rule as `getRelevantQuestions`, applied to the follow-up bank;
ids with no entry in the bank are dropped. -/
def getRelevantFollowUpPrinciples (principleIds : List String)
    (sectionNames : List String) : List String :=
  let types := getSectionTypes sectionNames
  let includeOverall := decide (types.length > 1)
  principleIds.filter fun id =>
    match recordLookup followUpQuestions id with
    | none => false
    | some questionData =>
      let matchesSectionType := questionData.appliesTo.any fun t => types.contains t
      let isOverallQuestion := questionData.appliesTo.contains .overall
      matchesSectionType || (includeOverall && isOverallQuestion)

/-! ## Principle catalog (`auditPrompts.ts`) -/

structure RubricLevel where
  label : String
  description : String
deriving DecidableEq

structure AuditPromptData where
  prompt : String
  recommendation : String
  /-- The five rubric levels, in order 1–5 (the source's
  `Record<number, RubricLevel>` with keys 1..5). -/
  rubric : List RubricLevel
  appliesTo : List SectionType
deriving DecidableEq

/-- The `auditData` record: the full principle catalog with scoring rubrics
and declared applicable section types, in source insertion order. -/
def auditData : List (String × AuditPromptData) :=
  [ ( "spaced-repetition"
    , { prompt := "How well does your design distribute learning over time?"
      , recommendation := "Consider adding review schedules, reminder systems, or spacing out practice sessions to leverage the spacing effect for better long-term retention."
      , rubric :=
        [ { label := "Not implemented", description := "All content is presented in a single session with no planned review or follow-up." }
        , { label := "Minimal", description := "Some content is revisited, but timing is arbitrary or inconsistent." }
        , { label := "Partial", description := "Review sessions exist but intervals are not optimized based on spacing principles." }
        , { label := "Well implemented", description := "Content is systematically spaced with intentional intervals between sessions." }
        , { label := "Fully integrated", description := "Adaptive spacing adjusts review timing based on learner performance and forgetting curves." } ]
      , appliesTo := [.review, .overall] } )
  , ( "retrieval-practice"
    , { prompt := "How often do learners actively recall information from memory?"
      , recommendation := "Add practice quizzes, flashcards, or recall exercises. Replace passive re-reading with active retrieval opportunities."
      , rubric :=
        [ { label := "Not implemented", description := "Learners only read, watch, or listen—no opportunities to recall from memory." }
        , { label := "Minimal", description := "Occasional review questions, but mostly recognition-based (multiple choice) rather than recall." }
        , { label := "Partial", description := "Some retrieval practice exists but is not the primary learning activity." }
        , { label := "Well implemented", description := "Regular opportunities to recall information with feedback on accuracy." }
        , { label := "Fully integrated", description := "Retrieval is the core learning mechanism, with varied formats and immediate feedback." } ]
      , appliesTo := [.postQuiz, .quiz, .practice, .review, .overall] } )
  , ( "elaboration"
    , { prompt := "How well do you prompt learners to explain and connect new information?"
      , recommendation := "Include reflection prompts, ask \"why\" and \"how\" questions, or have learners explain concepts to others or write summaries."
      , rubric :=
        [ { label := "Not implemented", description := "Content is presented without prompts for explanation or connection to prior knowledge." }
        , { label := "Minimal", description := "Occasional \"think about\" prompts but no structured elaboration activities." }
        , { label := "Partial", description := "Some opportunities to explain concepts, but connections to prior knowledge are not explicit." }
        , { label := "Well implemented", description := "Regular prompts to explain \"why\" and \"how,\" with explicit links to prior knowledge." }
        , { label := "Fully integrated", description := "Learners consistently generate explanations, make connections, and teach concepts to others." } ]
      , appliesTo := [.postQuiz, .quiz, .lesson, .practice, .overall] } )
  , ( "interleaving"
    , { prompt := "How much do you mix different topics or problem types during practice?"
      , recommendation := "Mix related concepts within practice sessions. Vary problem types to improve discrimination and transfer."
      , rubric :=
        [ { label := "Not implemented", description := "Topics are practiced in isolated blocks—one type at a time until mastery." }
        , { label := "Minimal", description := "Some variety within sessions, but topics are mostly grouped together." }
        , { label := "Partial", description := "Topics are sometimes mixed, but blocking is still the dominant pattern." }
        , { label := "Well implemented", description := "Practice regularly interleaves different topics or problem types within sessions." }
        , { label := "Fully integrated", description := "Systematic interleaving across all practice, requiring learners to discriminate between approaches." } ]
      , appliesTo := [.postQuiz, .quiz, .practice, .review, .overall] } )
  , ( "desirable-difficulties"
    , { prompt := "Does your design include productive challenges that may slow initial learning but boost retention?"
      , recommendation := "Introduce appropriate difficulty through spacing, interleaving, varied practice, or generation tasks that create productive struggle."
      , rubric :=
        [ { label := "Not implemented", description := "Learning is made as easy as possible—no intentional challenges or struggle." }
        , { label := "Minimal", description := "Some challenging elements exist but are seen as obstacles rather than features." }
        , { label := "Partial", description := "A few productive difficulties are included, but ease is still prioritized." }
        , { label := "Well implemented", description := "Strategic challenges are built in (generation, variation, spacing) with learner support." }
        , { label := "Fully integrated", description := "Productive struggle is a design principle—difficulty is calibrated to maximize long-term learning." } ]
      , appliesTo := [.postQuiz, .quiz, .practice, .overall] } )
  , ( "deliberate-practice"
    , { prompt := "How well do you target specific weaknesses with focused practice and feedback?"
      , recommendation := "Identify skill gaps and provide focused practice on weak areas. Ensure immediate, specific feedback on performance."
      , rubric :=
        [ { label := "Not implemented", description := "Practice is generic—same activities for all learners regardless of skill level." }
        , { label := "Minimal", description := "Some differentiation exists, but practice does not target individual weaknesses." }
        , { label := "Partial", description := "Weaknesses can be identified, but targeted practice is limited or optional." }
        , { label := "Well implemented", description := "Practice focuses on specific skill gaps with immediate, actionable feedback." }
        , { label := "Fully integrated", description := "Continuous diagnosis of weaknesses with adaptive practice at the edge of ability." } ]
      , appliesTo := [.practice, .overall] } )
  , ( "cognitive-load-theory"
    , { prompt := "How well do you manage information presentation to avoid overwhelming working memory?"
      , recommendation := "Break complex content into smaller pieces, eliminate extraneous information, and use worked examples to reduce cognitive load."
      , rubric :=
        [ { label := "Not implemented", description := "Dense content with no consideration for working memory limits—information overload." }
        , { label := "Minimal", description := "Some awareness of complexity, but content still overwhelms novice learners." }
        , { label := "Partial", description := "Content is organized but may still include extraneous information or split attention." }
        , { label := "Well implemented", description := "Information is streamlined, integrated, and presented in digestible amounts." }
        , { label := "Fully integrated", description := "Load is carefully managed—worked examples, fading, and scaffolding matched to expertise." } ]
      , appliesTo := [.preQuiz, .postQuiz, .quiz, .lesson, .practice, .review, .onboarding, .overall] } )
  , ( "chunking"
    , { prompt := "How well do you group complex information into meaningful, manageable pieces?"
      , recommendation := "Group related information into meaningful chunks. Use hierarchies, categories, or patterns to organize content."
      , rubric :=
        [ { label := "Not implemented", description := "Information is presented as a continuous stream without clear organization." }
        , { label := "Minimal", description := "Some grouping exists but chunks are arbitrary or too large to be useful." }
        , { label := "Partial", description := "Content is divided into sections, but relationships between chunks are unclear." }
        , { label := "Well implemented", description := "Information is grouped into meaningful chunks with clear hierarchies and connections." }
        , { label := "Fully integrated", description := "Chunking leverages learner schemas—patterns and relationships are made explicit." } ]
      , appliesTo := [.lesson, .onboarding, .overall] } )
  , ( "growth-mindset"
    , { prompt := "How well does your messaging emphasize that abilities develop through effort?"
      , recommendation := "Praise effort and strategy over innate ability. Frame challenges as opportunities to grow. Normalize productive struggle."
      , rubric :=
        [ { label := "Not implemented", description := "Messaging implies fixed ability—success attributed to talent, failure to lack of ability." }
        , { label := "Minimal", description := "Effort is occasionally mentioned but not consistently reinforced." }
        , { label := "Partial", description := "Growth mindset language is present but may conflict with other fixed-mindset cues." }
        , { label := "Well implemented", description := "Consistent messaging that effort and strategy lead to improvement; struggle is normalized." }
        , { label := "Fully integrated", description := "Growth mindset is embedded throughout—feedback, framing, and culture all reinforce it." } ]
      , appliesTo := [.preQuiz, .postQuiz, .quiz, .lesson, .practice, .onboarding, .overall] } )
  , ( "self-efficacy"
    , { prompt := "How well do you build learner confidence through achievable challenges and success?"
      , recommendation := "Sequence tasks for early wins. Provide mastery experiences, positive feedback, and models of success."
      , rubric :=
        [ { label := "Not implemented", description := "Tasks are too difficult early on—learners experience repeated failure." }
        , { label := "Minimal", description := "Some easy tasks exist but difficulty progression is inconsistent." }
        , { label := "Partial", description := "Early wins are possible, but confidence-building is not systematically designed." }
        , { label := "Well implemented", description := "Tasks are sequenced for success; positive feedback and models build confidence." }
        , { label := "Fully integrated", description := "Mastery experiences are central—learners build genuine competence through graduated challenges." } ]
      , appliesTo := [.preQuiz, .postQuiz, .quiz, .lesson, .practice, .onboarding, .overall] } )
  , ( "metacognition"
    , { prompt := "How well do you prompt learners to reflect on and monitor their own learning?"
      , recommendation := "Add self-assessment tools, planning prompts, or reflection questions. Help learners recognize what they know and don\x27t know."
      , rubric :=
        [ { label := "Not implemented", description := "No prompts for self-reflection—learners are not asked to think about their thinking." }
        , { label := "Minimal", description := "Occasional reflection prompts, but no structured metacognitive practice." }
        , { label := "Partial", description := "Some self-assessment opportunities, but learners rarely act on insights." }
        , { label := "Well implemented", description := "Regular prompts to plan, monitor, and evaluate learning with actionable feedback." }
        , { label := "Fully integrated", description := "Metacognition is taught explicitly—learners develop awareness of their learning processes." } ]
      , appliesTo := [.preQuiz, .postQuiz, .quiz, .lesson, .practice, .review, .overall] } )
  , ( "self-explanation"
    , { prompt := "How well do you encourage learners to explain material to themselves?"
      , recommendation := "Include prompts for learners to explain their reasoning, clarify steps, or articulate why solutions work."
      , rubric :=
        [ { label := "Not implemented", description := "Learners consume content passively—no prompts to explain or articulate understanding." }
        , { label := "Minimal", description := "Occasional \"why\" questions, but self-explanation is not a regular practice." }
        , { label := "Partial", description := "Some self-explanation prompts exist but are easy to skip or ignore." }
        , { label := "Well implemented", description := "Regular prompts to explain reasoning, with scaffolding for effective explanations." }
        , { label := "Fully integrated", description := "Self-explanation is a core activity—learners articulate understanding at each step." } ]
      , appliesTo := [.postQuiz, .quiz, .lesson, .practice, .overall] } )
  , ( "transfer-of-learning"
    , { prompt := "How well do you help learners apply knowledge to new and varied contexts?"
      , recommendation := "Use varied examples, highlight underlying principles, and provide practice in multiple contexts to promote transfer."
      , rubric :=
        [ { label := "Not implemented", description := "Learning is context-bound—no varied examples or application to new situations." }
        , { label := "Minimal", description := "A few different examples, but underlying principles are not made explicit." }
        , { label := "Partial", description := "Some transfer activities exist, but practice mostly stays in the original context." }
        , { label := "Well implemented", description := "Varied examples and contexts; underlying principles are highlighted for transfer." }
        , { label := "Fully integrated", description := "Transfer is designed in—learners practice applying knowledge across diverse situations." } ]
      , appliesTo := [.lesson, .practice, .overall] } ) ]

/-! ## Missing-flow advisor (`missingFlowsData.ts`) -/

inductive Priority where
  | high
  | medium
  | low
deriving DecidableEq, Repr

/-- `priorityOrder = { high: 0, medium: 1, low: 2 }`. -/
def priorityOrder : Priority → Nat
  | .high => 0
  | .medium => 1
  | .low => 2

structure MissingFlowRecommendation where
  sectionType : SectionType
  priority : Priority
  headline : String
  recommendation : String
  whyItMatters : String
  affectedPrinciples : List String
deriving DecidableEq

/-- The static `missingFlowRecommendations` table. -/
def missingFlowRecommendations : List MissingFlowRecommendation :=
  [ { sectionType := .practice
    , priority := .high
    , headline := "Practice Activities"
    , recommendation := "Add activities where learners apply concepts with immediate feedback."
    , whyItMatters := "Active practice with feedback is one of the most effective ways to build lasting skills."
    , affectedPrinciples := ["deliberate-practice", "retrieval-practice", "interleaving"] }
  , { sectionType := .quiz
    , priority := .high
    , headline := "Knowledge Checks / Quizzes"
    , recommendation := "Add quizzes that require learners to recall information from memory."
    , whyItMatters := "Retrieval practice strengthens memory and helps identify gaps in understanding."
    , affectedPrinciples := ["retrieval-practice", "desirable-difficulties"] }
  , { sectionType := .preQuiz
    , priority := .medium
    , headline := "Diagnostic Assessment"
    , recommendation := "A pre-assessment can personalize learning paths and activate prior knowledge."
    , whyItMatters := "Diagnostic assessments help calibrate instruction to learner needs."
    , affectedPrinciples := ["metacognition"] }
  , { sectionType := .postQuiz
    , priority := .medium
    , headline := "Summative Assessment"
    , recommendation := "Add a final assessment to measure learning outcomes and provide closure."
    , whyItMatters := "Summative assessments verify mastery and provide meaningful feedback on progress."
    , affectedPrinciples := ["retrieval-practice", "metacognition"] }
  , { sectionType := .review
    , priority := .medium
    , headline := "Review / Spaced Practice"
    , recommendation := "Include activities that revisit content over time to combat forgetting."
    , whyItMatters := "Spaced review dramatically improves long-term retention."
    , affectedPrinciples := ["spaced-repetition"] } ]

/-- The filter predicate inside `getMissingFlowRecommendations`: suppress a
recommendation whose type is present, and suppress the generic quiz
recommendation when a pre- or post-quiz is present. -/
def missingFlowKeep (presentTypes : List SectionType)
    (r : MissingFlowRecommendation) : Bool :=
  if presentTypes.contains r.sectionType then false
  else if r.sectionType == .quiz &&
      (presentTypes.contains .preQuiz || presentTypes.contains .postQuiz) then false
  else true

/-- `getMissingFlowRecommendations(presentTypes)`: filter the table, then
sort ascending by `priorityOrder` with a stable sort (JavaScript
`Array.prototype.sort` is stable). -/
def getMissingFlowRecommendations (presentTypes : List SectionType) :
    List MissingFlowRecommendation :=
  (missingFlowRecommendations.filter (missingFlowKeep presentTypes)).mergeSort
    fun a b => priorityOrder a.priority ≤ priorityOrder b.priority

/-! ## Score records and the analyze endpoint (`analyze.ts`) -/

inductive Confidence where
  | high
  | medium
  | low
deriving DecidableEq, Repr

/-- A per-principle score, as parsed from the oracle's JSON reply
(`ScoreResult` in `analyze.ts`, `AIScore` in `AuditTool.tsx`).  The
optional `notApplicable` field is a `Bool`; an absent field is `false`
(both are falsy in the source's tests). -/
structure AIScore where
  score : Nat
  reasoning : String
  confidence : Confidence
  notApplicable : Bool
deriving DecidableEq

/-- The mapping of principle id to `appliesTo` built by both `buildPrompt`
and the `POST` handler from `auditData`. -/
def principleAppliesTo : List (String × List SectionType) :=
  auditData.map fun e => (e.1, e.2.appliesTo)

/-- `Object.keys(auditData)`: all principle ids, in catalog order. -/
def allPrincipleIds : List String := recordKeys auditData

/-- The applicable principle ids for a section type, exactly as both call
sites compute them. -/
def applicableIdsFor (sectionType : SectionType) : List String :=
  getApplicablePrincipleIds sectionType allPrincipleIds principleAppliesTo

/-- The placeholder score the `POST` handler merges in for each principle
that was not sent to the oracle. -/
def notApplicableScore (resolvedSectionType : SectionType) : AIScore :=
  { score := 0
  , reasoning := "Not applicable to " ++ resolvedSectionType.str ++ " sections"
  , confidence := .high
  , notApplicable := true }

/-- The merge loop at the end of the `POST` handler: for every catalog
principle that is not applicable to the resolved section type, assign the
explicit not-applicable placeholder into the parsed score record. -/
def markNonApplicable (resolvedSectionType : SectionType)
    (scores : List (String × AIScore)) : List (String × AIScore) :=
  let applicable := applicableIdsFor resolvedSectionType
  allPrincipleIds.foldl
    (fun acc principleId =>
      if applicable.contains principleId then acc
      else recordSet acc principleId (notApplicableScore resolvedSectionType))
    scores

/-! ### Prompt construction (`buildPrompt`) -/

/-- One answered upfront question (`UpfrontContextAnswers` entry). -/
structure UpfrontAnswer where
  selectedOption : String
  freeText : String
deriving DecidableEq

/-- The context block contributed by one answered question, if its id and
selected option resolve against the question bank. -/
def upfrontAnswerBlock (questionId : String) (answer : UpfrontAnswer) : String :=
  match upfrontQuestions.find? fun q => q.id == questionId with
  | none => ""
  | some question =>
    match question.options.find? fun o => o.value == answer.selectedOption with
    | none => ""
    | some selectedOption =>
      "**" ++ question.question ++ "**\n" ++
      "User selected: \"" ++ selectedOption.label ++ "\"\n" ++
      "Scoring guidance: " ++ selectedOption.scoringHint ++ "\n" ++
      "Affects principles: " ++ String.intercalate ", " question.principleIds ++ "\n" ++
      (if answer.freeText.trim ≠ "" then
        "Additional context: \"" ++ answer.freeText ++ "\"\n"
      else "") ++
      "\n"

/-- `buildUpfrontContextSection(upfrontContext)`. -/
def buildUpfrontContextSection (upfrontContext : List (String × UpfrontAnswer)) :
    String :=
  if upfrontContext.isEmpty then ""
  else
    "\nIMPORTANT CONTEXT ABOUT THE OVERALL LEARNING EXPERIENCE:\nThe user has provided information about behaviors that cannot be assessed from screenshots alone. Use this context to inform your scoring of the relevant principles.\n\n" ++
    String.join (upfrontContext.map fun e => upfrontAnswerBlock e.1 e.2) ++
    "Use this context when scoring the affected principles. These principles may receive higher scores if the user\x27s context indicates implementation beyond what\x27s visible in screenshots.\n\n"

/-- The rubric listing block for one principle: its id, its prompt
question, and its five rubric levels as numbered lines. -/
def principleBlock (id : String) (data : AuditPromptData) : String :=
  "## " ++ id ++ "\n" ++
  "Question: " ++ data.prompt ++ "\n" ++
  "Rubric:\n" ++
  String.join ((List.range 5).map fun i =>
    match data.rubric[i]? with
    | some level =>
      "  " ++ Nat.repr (i + 1) ++ " - " ++ level.label ++ ": " ++
        level.description ++ "\n"
    | none => "") ++
  "\n"

/-- `buildPrompt(sectionName?, resolvedSectionType?, sectionNotes?, upfrontContext?)`:
the full oracle instruction text. -/
def buildPrompt (sectionName : Option String)
    (resolvedSectionType : Option SectionType)
    (sectionNotes : Option String)
    (upfrontContext : List (String × UpfrontAnswer)) : String :=
  let sectionType := resolvedSectionType.getD .overall
  let applicablePrincipleIds :=
    getApplicablePrincipleIds sectionType allPrincipleIds principleAppliesTo
  let applicablePrinciples := applicablePrincipleIds.map fun id =>
    (id, recordLookup auditData id)
  let header :=
    match sectionName with
    | some name =>
      "You are an expert in learning science and instructional design. You are analyzing screenshots from ONE SECTION of a larger learning experience.\n\nThis section is: \"" ++ name ++ "\" (detected type: " ++ sectionType.str ++ ")\n" ++
      (if upfrontContext.isEmpty then ""
       else buildUpfrontContextSection upfrontContext) ++
      (match sectionNotes with
       | some notes =>
         "\nThe user has provided additional section-specific context:\n\"" ++ notes ++ "\"\n\nConsider BOTH the screenshots AND this context when scoring.\n\n"
       | none => "") ++
      "\nFor each of the " ++ Nat.repr applicablePrinciples.length ++ " learning science principles below (pre-filtered to be relevant for \"" ++ sectionType.str ++ "\" sections):\n1. Provide a score from 1-5 based on the rubric criteria\n2. Provide brief reasoning (1-2 sentences) explaining your score\n3. Provide confidence level: \"high\", \"medium\", or \"low\"\n4. Set \"notApplicable\" to false (these principles were pre-selected as applicable)\n\nNote: Principles not applicable to this section type have already been filtered out.\n\n"
    | none =>
      "You are an expert in learning science and instructional design. Analyze the provided screenshots of a learning experience and evaluate it against each of the following 13 essential learning science principles.\n\nFor each principle, provide:\n1. A score from 1-5 based on the rubric criteria below\n2. A brief reasoning (1-2 sentences) explaining your score based on what you observe\n3. A confidence level: \"high\" if clearly visible, \"medium\" if partially visible, \"low\" if you\x27re inferring or can\x27t fully assess from screenshots\n\nIMPORTANT: Some principles (like spaced repetition timing or long-term transfer) may not be fully assessable from static screenshots. Use \"low\" confidence for these and note what you cannot determine.\n\n"
  header ++
  "Here are the " ++ Nat.repr applicablePrinciples.length ++ " principles with their scoring rubrics:\n\n" ++
  String.join (applicablePrinciples.map fun e =>
    match e.2 with
    | some data => principleBlock e.1 data
    | none => "") ++
  "\nRespond in valid JSON format only, with no additional text:\n\x7b\n  \"scores\": \x7b\n    \"principle-id\": \x7b\n      \"score\": <1-5>,\n      \"reasoning\": \"<brief explanation>\",\n      \"confidence\": \"<high|medium|low>\",\n      \"notApplicable\": false\n    \x7d,\n    ...\n  \x7d\n\x7d\n\nAnalyze the screenshots now and provide your assessment."

/-! ## The audit tool component (`AuditTool.tsx`) -/

/-- The six closed principle categories. -/
inductive Category where
  | memoryRetention
  | practiceSkillBuilding
  | motivationEngagement
  | cognitiveLoad
  | feedbackAssessment
  | transferApplication
deriving DecidableEq, Repr

/-- A catalog principle as passed to the component (`Principle` prop). -/
structure Principle where
  id : String
  title : String
  category : Category
  summary : String
deriving DecidableEq

/-- One section's analysis result (`SectionResult`). -/
structure SectionResult where
  sectionId : String
  sectionName : String
  scores : List (String × AIScore)
deriving DecidableEq

/-- An aggregated score: an `AIScore` annotated with the section that
contributed it (`AIScore & { contributingSection: string }`). -/
structure CombinedScore where
  score : Nat
  reasoning : String
  confidence : Confidence
  notApplicable : Bool
  contributingSection : String
deriving DecidableEq

/-- `{ ...score, contributingSection: result.sectionName }`. -/
def combineWith (score : AIScore) (sectionName : String) : CombinedScore :=
  { score := score.score
  , reasoning := score.reasoning
  , confidence := score.confidence
  , notApplicable := score.notApplicable
  , contributingSection := sectionName }

/-- The inner loop of `combinedAiScores` for one principle: scan all
section results, keeping an entry that exists, is applicable
(`!notApplicable`), has `score > 0`, and strictly beats the best so far. -/
def bestScoreFor (sectionResults : List SectionResult) (principleId : String) :
    Option CombinedScore :=
  sectionResults.foldl
    (fun bestScore result =>
      match recordLookup result.scores principleId with
      | some score =>
        if !score.notApplicable && score.score > 0 then
          match bestScore with
          | none => some (combineWith score result.sectionName)
          | some best =>
            if score.score > best.score then
              some (combineWith score result.sectionName)
            else some best
        else bestScore
      | none => bestScore)
    none

/-- `combinedAiScores`: `null` when no section results exist, otherwise the
record assigning, per catalog principle with a winning entry, that
entry. -/
def combinedAiScores (principles : List Principle)
    (sectionResults : List SectionResult) :
    Option (List (String × CombinedScore)) :=
  if sectionResults.length == 0 then none
  else
    some (principles.filterMap fun p =>
      (bestScoreFor sectionResults p.id).map fun b => (p.id, b))

/-- The ratings pre-fill at the end of `analyzeSections`: per principle the
best applicable score (strictly improving over a starting best of `0`), or
`null` when it stays `0`. -/
def prefillRatings (principles : List Principle)
    (results : List SectionResult) : List (String × Option Nat) :=
  principles.map fun p =>
    let bestScore := results.foldl
      (fun bestScore result =>
        match recordLookup result.scores p.id with
        | some score =>
          if !score.notApplicable && score.score > bestScore then score.score
          else bestScore
        | none => bestScore)
      0
    (p.id, if bestScore > 0 then some bestScore else none)

/-! ### Results derivation (the `results` memo) -/

structure GapEntry where
  id : String
  title : String
  category : Category
  score : Nat
  recommendation : String
  contributingSection : Option String
deriving DecidableEq

structure StrengthEntry where
  id : String
  title : String
  category : Category
  score : Nat
  contributingSection : Option String
deriving DecidableEq

structure ResultsView where
  average : ℚ
  gaps : List GapEntry
  strengths : List StrengthEntry
  totalRated : Nat
deriving DecidableEq

/-- `Object.entries(ratings).filter(([, score]) => score !== null)`. -/
def ratedEntries (ratings : List (String × Option Nat)) : List (String × Nat) :=
  ratings.filterMap fun e => e.2.map fun score => (e.1, score)

/-- Look up the contributing section recorded in `combinedAiScores` for a
principle (`combinedAiScores?.[id]?.contributingSection`). -/
def contributingSectionOf (combinedAi : Option (List (String × CombinedScore)))
    (id : String) : Option String :=
  (combinedAi.bind fun m => recordLookup m id).map (·.contributingSection)

/-- Build one gap entry.  The source asserts the principle lookup with `!`;
ratings keys always come from `principles`, so the lookup succeeds and the
defaults below are never used there. -/
def mkGapEntry (principles : List Principle)
    (combinedAi : Option (List (String × CombinedScore)))
    (e : String × Nat) : GapEntry :=
  let principle := principles.find? fun p => p.id == e.1
  { id := e.1
  , title := (principle.map (·.title)).getD ""
  , category := (principle.map (·.category)).getD .memoryRetention
  , score := e.2
  , recommendation :=
      ((recordLookup auditData e.1).map (·.recommendation)).getD ""
  , contributingSection := contributingSectionOf combinedAi e.1 }

/-- Build one strength entry (same lookups as `mkGapEntry`). -/
def mkStrengthEntry (principles : List Principle)
    (combinedAi : Option (List (String × CombinedScore)))
    (e : String × Nat) : StrengthEntry :=
  let principle := principles.find? fun p => p.id == e.1
  { id := e.1
  , title := (principle.map (·.title)).getD ""
  , category := (principle.map (·.category)).getD .memoryRetention
  , score := e.2
  , contributingSection := contributingSectionOf combinedAi e.1 }

/-- The `results` memo: `null` when nothing is rated; otherwise the
average over rated principles only, gaps (score ≤ 3) sorted ascending by
score, and strengths (score ≥ 4) sorted descending by score (stable
sorts). -/
def resultsOf (principles : List Principle)
    (combinedAi : Option (List (String × CombinedScore)))
    (ratings : List (String × Option Nat)) : Option ResultsView :=
  let rated := ratedEntries ratings
  if rated.length == 0 then none
  else
    let scores := rated.map fun e => e.2
    let average : ℚ := (scores.map fun s => (s : ℚ)).sum / (scores.length : ℚ)
    let gaps :=
      ((rated.filter fun e => e.2 ≤ 3).map
          (mkGapEntry principles combinedAi)).mergeSort
        fun a b => a.score ≤ b.score
    let strengths :=
      ((rated.filter fun e => 4 ≤ e.2).map
          (mkStrengthEntry principles combinedAi)).mergeSort
        fun a b => b.score ≤ a.score
    some { average := average, gaps := gaps, strengths := strengths
         , totalRated := rated.length }

/-! ### The section analysis run (`analyzeSections`) -/

/-- A user-defined section (`Section` in the component; renamed because
`section` is a Lean keyword).  Images are opaque blobs. -/
structure AuditSection where
  id : String
  name : String
  images : List String
  notes : String
deriving DecidableEq

/-- The observable outcome of one `analyzeSections` run: which sections'
oracle calls were made (in order), the error state, the final
`sectionResults` state, and the final `ratings` state (`none` meaning the
run returned before touching the ratings). -/
structure RunOutcome where
  calls : List String
  error : Option String
  sectionResults : List SectionResult
  ratings : Option (List (String × Option Nat))
deriving DecidableEq

/-- The sequential `for … await` loop of `analyzeSections`.  `sectionResults`
was reset to `[]` when the run started; on the first oracle failure the
handler records the error and returns, leaving that empty list in place and
never calling the oracle for the remaining sections.  On completion it
stores the accumulated results and pre-fills the ratings. -/
def analyzeLoop (oracle : AuditSection → Except String (List (String × AIScore)))
    (principles : List Principle) :
    List AuditSection → List SectionResult → RunOutcome
  | [], acc =>
    { calls := []
    , error := none
    , sectionResults := acc
    , ratings := some (prefillRatings principles acc) }
  | s :: rest, acc =>
    match oracle s with
    | .error e =>
      { calls := [s.name], error := some e, sectionResults := [], ratings := none }
    | .ok scores =>
      let out := analyzeLoop oracle principles rest
        (acc ++ [{ sectionId := s.id, sectionName := s.name, scores := scores }])
      { out with calls := s.name :: out.calls }

/-- `analyzeSections`: run the loop over the sections that have images;
`none` models the early return when no section has images (state
untouched). -/
def analyzeSectionsRun
    (oracle : AuditSection → Except String (List (String × AIScore)))
    (principles : List Principle) (sections : List AuditSection) :
    Option RunOutcome :=
  let sectionsWithImages := sections.filter fun s => s.images.length > 0
  if sectionsWithImages.isEmpty then none
  else some (analyzeLoop oracle principles sectionsWithImages [])

/-! ### Follow-up refinement completion (`handleFollowUpComplete`) -/

structure RefinedScore where
  principleId : String
  originalScore : Nat
  refinedScore : Nat
  refinedReasoning : String
  specificActions : List String
deriving DecidableEq

/-- The component state touched by `handleFollowUpComplete`. -/
structure FollowUpState where
  ratings : List (String × Option Nat)
  refinedScores : List RefinedScore
  error : Option String
  isRefining : Bool
  showFollowUp : Bool
deriving DecidableEq

/-- `handleFollowUpComplete`: early return when there are no combined AI
scores; otherwise, on a successful refine call, store the refined scores
and overwrite the refined principles' ratings; on a failed call, record
the error and leave ratings and refined scores untouched.  Either way the
`finally` block clears `isRefining` and `showFollowUp`. -/
def handleFollowUpComplete
    (combinedAi : Option (List (String × CombinedScore)))
    (st : FollowUpState)
    (refineResponse : Except String (List RefinedScore)) : FollowUpState :=
  match combinedAi with
  | none => st
  | some _ =>
    match refineResponse with
    | .error e =>
      { st with error := some e, isRefining := false, showFollowUp := false }
    | .ok refinedScores =>
      { ratings :=
          refinedScores.foldl
            (fun newRatings refined =>
              recordSet newRatings refined.principleId (some refined.refinedScore))
            st.ratings
      , refinedScores := refinedScores
      , error := none
      , isRefining := false
      , showFollowUp := false }

/-! ### Legacy share link (`shareLegacyUrl` and the URL-param parse) -/

/-- `Array.prototype.join(',')`. -/
def joinComma : List String → String
  | [] => ""
  | [s] => s
  | s :: rest => s ++ "," ++ joinComma rest

/-- The score list of `shareLegacyUrl`:
`principles.map((p) => ratings[p.id] ?? 0).join(',')` — an unrated (null)
or absent principle encodes as `0`. -/
def shareLegacyEncode (principles : List Principle)
    (ratings : List (String × Option Nat)) : String :=
  joinComma (principles.map fun p =>
    Nat.repr (((recordLookup ratings p.id).getD none).getD 0))

/-- `String.prototype.split(',')` on the character list. -/
def splitComma : List Char → List (List Char)
  | [] => [[]]
  | c :: rest =>
    if c = ',' then [] :: splitComma rest
    else
      match splitComma rest with
      | [] => [[c]]
      | g :: gs => (c :: g) :: gs

/-- `parseInt(s, 10)` on an all-digit decimal string.  (On a non-numeric
string `parseInt` yields `NaN`, which the decoder's truthiness test sends
to `null` just as it sends `0`; this embedding only receives digit
strings.) -/
def parseIntDec (s : List Char) : Nat :=
  s.foldl (fun acc c => acc * 10 + (c.toNat - 48)) 0

/-- The URL-parameter parse on mount: split the `r` parameter on commas,
parse each piece, and assign `principles[i] ↦ scores[i]` with zero (or a
missing entry) decoding to `null`, not to score 0. -/
def shareLegacyDecode (principles : List Principle) (encoded : String) :
    List (String × Option Nat) :=
  let scores := (splitComma encoded.data).map parseIntDec
  principles.mapIdx fun i p =>
    (p.id,
      match scores[i]? with
      | some score => if score > 0 then some score else none
      | none => none)

/-! ## Spec-side definitions for the aggregation invariant

`specAggregatedRating` is modelled from the spec's words (not from the
code), to be compared with the code's `bestScoreFor`: "the ScoreResult
with the maximum score among section results where `notApplicable` is
false and score > 0, annotated with which section contributed it …
ties broken by encounter order (first section wins ties)". -/

/-- The qualifying entries for one principle: the `(sectionName, score)`
pairs over all section results where the score exists, is applicable and
is positive, in section iteration order. -/
def qualifyingEntries (sectionResults : List SectionResult)
    (principleId : String) : List (String × AIScore) :=
  sectionResults.filterMap fun result =>
    match recordLookup result.scores principleId with
    | some score =>
      if !score.notApplicable && score.score > 0 then
        some (result.sectionName, score)
      else none
    | none => none

/-- The maximum score among a list of qualifying entries (`0` when there
are none). -/
def maxQualifyingScore (entries : List (String × AIScore)) : Nat :=
  (entries.map fun e => e.2.score).foldr max 0

/-- The spec's aggregated rating: the first entry attaining the maximum
score, annotated with its section name; no rating when no entry
qualifies. -/
def specAggregatedRating (entries : List (String × AIScore)) :
    Option CombinedScore :=
  (entries.find? fun e => maxQualifyingScore entries ≤ e.2.score).map
    fun e => combineWith e.2 e.1

/-- Left-biased combination of two candidate bests: the later candidate
replaces the earlier one only when its score is strictly greater.  Proof
device for relating the aggregation fold to `specAggregatedRating`. -/
def mergeBest : Option CombinedScore → Option CombinedScore → Option CombinedScore
  | none, r => r
  | some b, none => some b
  | some b, some r => if r.score > b.score then some r else some b

/-- The candidate contributed by one section result for one principle
(the body of the aggregation fold's qualification test). -/
def qualCandidate (principleId : String) (result : SectionResult) :
    Option CombinedScore :=
  match recordLookup result.scores principleId with
  | some score =>
    if !score.notApplicable && score.score > 0 then
      some (combineWith score result.sectionName)
    else none
  | none => none

/-! # Theorems

## The section classifier (claim C2) -/

theorem lowerCode_idem (n : Nat) : lowerCode (lowerCode n) = lowerCode n := by
  unfold lowerCode
  split_ifs <;> omega

/-- C2: the section classifier is total and deterministic (it is a
function into `SectionType`), case-insensitive (two names with the same
ASCII-lowercased code points classify identically, and classification
factors through lowercasing), and evaluates the pattern groups in the
fixed order pre-quiz, post-quiz, quiz, practice, review, onboarding,
lesson, with `lesson` as the fallback for unrecognized names; in
particular `classify("Post-Lesson Quiz") = post-quiz` and
`classify("Pop Quiz") = quiz`. -/
theorem detectSectionType_spec :
    (∀ s t : String,
      (codes s).map lowerCode = (codes t).map lowerCode →
      detectSectionType s = detectSectionType t) ∧
    (∀ s : String, detectSectionType s = detectCodes ((codes s).map lowerCode)) ∧
    (∀ l : List Nat,
      (matchesAny preQuizPatterns l = true → detectCodes l = .preQuiz) ∧
      (matchesAny preQuizPatterns l = false →
        matchesAny postQuizPatterns l = true → detectCodes l = .postQuiz) ∧
      (matchesAny preQuizPatterns l = false →
        matchesAny postQuizPatterns l = false →
        matchesAny quizPatterns l = true → detectCodes l = .quiz) ∧
      (matchesAny preQuizPatterns l = false →
        matchesAny postQuizPatterns l = false →
        matchesAny quizPatterns l = false →
        matchesAny practicePatterns l = true → detectCodes l = .practice) ∧
      (matchesAny preQuizPatterns l = false →
        matchesAny postQuizPatterns l = false →
        matchesAny quizPatterns l = false →
        matchesAny practicePatterns l = false →
        matchesAny reviewPatterns l = true → detectCodes l = .review) ∧
      (matchesAny preQuizPatterns l = false →
        matchesAny postQuizPatterns l = false →
        matchesAny quizPatterns l = false →
        matchesAny practicePatterns l = false →
        matchesAny reviewPatterns l = false →
        matchesAny onboardingPatterns l = true → detectCodes l = .onboarding) ∧
      (matchesAny preQuizPatterns l = false →
        matchesAny postQuizPatterns l = false →
        matchesAny quizPatterns l = false →
        matchesAny practicePatterns l = false →
        matchesAny reviewPatterns l = false →
        matchesAny onboardingPatterns l = false → detectCodes l = .lesson)) ∧
    detectSectionType "Post-Lesson Quiz" = .postQuiz ∧
    detectSectionType "Pop Quiz" = .quiz := by
  refine ⟨?_, ?_, ?_, by decide, by decide⟩
  · intro s t h
    unfold detectSectionType
    rw [h]
  · intro s
    rfl
  · intro l
    refine ⟨?_, ?_, ?_, ?_, ?_, ?_, ?_⟩ <;> intros <;> simp_all [detectCodes]

theorem detectSectionType_spec_witness :
    detectSectionType "PRACTICE DRILL" = detectSectionType "practice drill" ∧
    detectCodes ((codes "practice drill").map lowerCode) = .practice := by
  constructor
  · exact detectSectionType_spec.1 "PRACTICE DRILL" "practice drill" (by decide)
  · exact (detectSectionType_spec.2.2.1 ((codes "practice drill").map lowerCode)).2.2.2.1
      (by decide) (by decide) (by decide) (by decide)

/-! ## Detected section types never contain `overall` (claims C10, C2 support) -/

theorem detectCodes_ne_overall (l : List Nat) :
    detectCodes l ≠ SectionType.overall := by
  unfold detectCodes
  repeat' split
  all_goals simp

theorem detectSectionType_ne_overall (s : String) :
    detectSectionType s ≠ SectionType.overall :=
  detectCodes_ne_overall _

theorem mem_sectionTypesFold (names : List String) :
    ∀ (acc : List SectionType) (t : SectionType),
      t ∈ names.foldl
        (fun types name =>
          let u := detectSectionType name
          if types.contains u then types else types ++ [u]) acc →
      t ∈ acc ∨ ∃ s ∈ names, detectSectionType s = t := by
  induction names with
  | nil => intro acc t h; exact Or.inl h
  | cons name rest ih =>
    intro acc t h
    simp only [List.foldl_cons] at h
    rcases ih _ t h with hmem | ⟨s, hs, hst⟩
    · by_cases hc : acc.contains (detectSectionType name)
      · simp only [hc, if_pos] at hmem
        exact Or.inl hmem
      · simp only [hc, if_neg, Bool.false_eq_true, not_false_iff] at hmem
        rcases List.mem_append.mp hmem with h1 | h1
        · exact Or.inl h1
        · exact Or.inr ⟨name, List.mem_cons_self _ _, (List.mem_singleton.mp h1).symm⟩
    · exact Or.inr ⟨s, List.mem_cons_of_mem _ hs, hst⟩

theorem mem_getSectionTypes {names : List String} {t : SectionType}
    (h : t ∈ getSectionTypes names) : ∃ s ∈ names, detectSectionType s = t := by
  rcases mem_sectionTypesFold names [] t h with h0 | h1
  · cases h0
  · exact h1

theorem overall_not_mem_getSectionTypes (names : List String) :
    SectionType.overall ∉ getSectionTypes names := by
  intro h
  rcases mem_getSectionTypes h with ⟨s, -, hs⟩
  exact detectSectionType_ne_overall s hs

/-! ## Relevance of `overall` questions (claim C10) -/

theorem relevanceCond_iff (types ap : List SectionType)
    (hov : SectionType.overall ∉ types) :
    ((ap.any fun t => types.contains t) ||
        (decide (types.length > 1) && ap.contains SectionType.overall)) = true ↔
      (∃ t ∈ ap, t ≠ SectionType.overall ∧ t ∈ types) ∨
        (SectionType.overall ∈ ap ∧ 2 ≤ types.length) := by
  simp only [Bool.or_eq_true, List.any_eq_true, Bool.and_eq_true, decide_eq_true_eq,
    List.contains, List.elem_eq_mem]
  constructor
  · rintro (⟨t, ht, hc⟩ | ⟨hlen, hc⟩)
    · have htm : t ∈ types := by simpa using hc
      exact Or.inl ⟨t, ht, fun he => hov (he ▸ htm), htm⟩
    · exact Or.inr ⟨by simpa using hc, by omega⟩
  · rintro (⟨t, ht, _, htm⟩ | ⟨hc, hlen⟩)
    · exact Or.inl ⟨t, ht, by simpa using htm⟩
    · exact Or.inr ⟨by omega, by simpa using hc⟩

/-- C10: the question-relevance filters include a question (or follow-up
principle) whose `appliesTo` contains `overall` exactly when one of its
other listed types is among the detected section types, or at least two
distinct section types were detected; with a single detected type, an
`overall`-only question is never included. -/
theorem overallRelevance_spec (sectionNames : List String) :
    (∀ q ∈ upfrontQuestions, SectionType.overall ∈ q.appliesTo →
      (q ∈ getRelevantQuestions sectionNames ↔
        (∃ t ∈ q.appliesTo, t ≠ SectionType.overall ∧
            t ∈ getSectionTypes sectionNames) ∨
          2 ≤ (getSectionTypes sectionNames).length)) ∧
    (∀ (principleIds : List String) (id : String) (qd : FollowUpQuestionData),
      recordLookup followUpQuestions id = some qd →
      SectionType.overall ∈ qd.appliesTo →
      id ∈ principleIds →
      (id ∈ getRelevantFollowUpPrinciples principleIds sectionNames ↔
        (∃ t ∈ qd.appliesTo, t ≠ SectionType.overall ∧
            t ∈ getSectionTypes sectionNames) ∨
          2 ≤ (getSectionTypes sectionNames).length)) ∧
    ((getSectionTypes sectionNames).length ≤ 1 →
      ∀ q ∈ upfrontQuestions, (∀ t ∈ q.appliesTo, t = SectionType.overall) →
        q ∉ getRelevantQuestions sectionNames) := by
  have hov := overall_not_mem_getSectionTypes sectionNames
  refine ⟨?_, ?_, ?_⟩
  · intro q hq hqo
    rw [getRelevantQuestions, List.mem_filter]
    rw [relevanceCond_iff _ _ hov]
    constructor
    · rintro ⟨-, h | h⟩
      · exact Or.inl h
      · exact Or.inr h.2
    · rintro (h | h)
      · exact ⟨hq, Or.inl h⟩
      · exact ⟨hq, Or.inr ⟨hqo, h⟩⟩
  · intro principleIds id qd hlook hqo hid
    rw [getRelevantFollowUpPrinciples, List.mem_filter]
    simp only [hlook]
    rw [relevanceCond_iff _ _ hov]
    constructor
    · rintro ⟨-, h | h⟩
      · exact Or.inl h
      · exact Or.inr h.2
    · rintro (h | h)
      · exact ⟨hid, Or.inl h⟩
      · exact ⟨hid, Or.inr ⟨hqo, h⟩⟩
  · intro hlen q _ hall hq
    rw [getRelevantQuestions, List.mem_filter] at hq
    rcases hq with ⟨-, hq⟩
    simp only [Bool.or_eq_true, List.any_eq_true, Bool.and_eq_true,
      decide_eq_true_eq, List.contains, List.elem_eq_mem] at hq
    rcases hq with ⟨t, ht, hc⟩ | ⟨hgt, -⟩
    · have htm : t ∈ getSectionTypes sectionNames := by simpa using hc
      exact hov (hall t ht ▸ htm)
    · omega

theorem overallRelevance_spec_witness :
    ((⟨"spaced-learning", ["spaced-repetition"],
        "How does your learning experience handle review and repetition over time?",
        [ ⟨"none", "Learning happens in a single session with no planned follow-up",
            "No spaced repetition implemented - score 1"⟩
        , ⟨"manual-review", "Users can return to review content, but timing is up to them",
            "Minimal spacing - user-directed only - score 2"⟩
        , ⟨"reminders", "The system sends reminders or notifications to return and practice",
            "Some spaced repetition via reminders - score 3"⟩
        , ⟨"scheduled-review", "Content automatically resurfaces for review at set intervals",
            "Structured spaced repetition with fixed intervals - score 4"⟩
        , ⟨"adaptive-spacing", "Review timing adapts based on how well the user remembered content",
            "Adaptive spaced repetition (e.g., SM-2 algorithm) - score 5"⟩ ],
        "Describe any other spacing or review features:",
        [.overall, .review]⟩ : UpfrontQuestion) ∈
          getRelevantQuestions ["Lesson 1"] ↔
        (∃ t ∈ [SectionType.overall, SectionType.review],
            t ≠ SectionType.overall ∧ t ∈ getSectionTypes ["Lesson 1"]) ∨
          2 ≤ (getSectionTypes ["Lesson 1"]).length) ∧
    ("transfer-of-learning" ∈
        getRelevantFollowUpPrinciples ["transfer-of-learning"] ["Lesson 1", "Practice Game"] ↔
      (∃ t ∈ [SectionType.lesson, SectionType.practice, SectionType.overall],
          t ≠ SectionType.overall ∧
          t ∈ getSectionTypes ["Lesson 1", "Practice Game"]) ∨
        2 ≤ (getSectionTypes ["Lesson 1", "Practice Game"]).length) := by
  constructor
  · exact (overallRelevance_spec ["Lesson 1"]).1 _ (by decide) (by decide)
  · exact (overallRelevance_spec ["Lesson 1", "Practice Game"]).2.1
      ["transfer-of-learning"] "transfer-of-learning"
      ⟨[ "The same concept is shown in multiple different contexts"
       , "Underlying principles or patterns are made explicit"
       , "Learners apply knowledge to novel or real-world scenarios"
       , "Examples vary in surface features while sharing deep structure"
       , "Connections to other domains or applications are highlighted" ]
      , "Describe how learners apply knowledge to new contexts:"
      , [.lesson, .practice, .overall]⟩
      (by decide) (by decide) (by decide)

/-! ## Missing-flow advisor (claim C8) -/

theorem missingFlow_le_trans (a b c : MissingFlowRecommendation)
    (hab : decide (priorityOrder a.priority ≤ priorityOrder b.priority) = true)
    (hbc : decide (priorityOrder b.priority ≤ priorityOrder c.priority) = true) :
    decide (priorityOrder a.priority ≤ priorityOrder c.priority) = true := by
  simp only [decide_eq_true_eq] at *
  omega

theorem missingFlow_le_total (a b : MissingFlowRecommendation) :
    (decide (priorityOrder a.priority ≤ priorityOrder b.priority) ||
      decide (priorityOrder b.priority ≤ priorityOrder a.priority)) = true := by
  simp only [Bool.or_eq_true, decide_eq_true_eq]
  omega

/-- C8: the advisor never recommends a present section type; it suppresses
the generic quiz recommendation whenever a pre- or post-quiz is present
(concretely: `recommendMissing({pre-quiz})` has no quiz recommendation,
`recommendMissing({})` has one); and its output is sorted by priority
high → medium → low, stably (elements of equal priority keep the filtered
table's order). -/
theorem getMissingFlowRecommendations_spec (presentTypes : List SectionType) :
    (∀ r ∈ getMissingFlowRecommendations presentTypes,
        r.sectionType ∉ presentTypes) ∧
    (SectionType.preQuiz ∈ presentTypes ∨ SectionType.postQuiz ∈ presentTypes →
      ∀ r ∈ getMissingFlowRecommendations presentTypes,
        r.sectionType ≠ SectionType.quiz) ∧
    (∀ r ∈ getMissingFlowRecommendations [SectionType.preQuiz],
        r.sectionType ≠ SectionType.quiz) ∧
    (∃ r ∈ getMissingFlowRecommendations [], r.sectionType = SectionType.quiz) ∧
    List.Pairwise
      (fun a b => priorityOrder a.priority ≤ priorityOrder b.priority)
      (getMissingFlowRecommendations presentTypes) ∧
    (∀ p : Priority,
      (getMissingFlowRecommendations presentTypes).filter
          (fun r => r.priority == p) =
        (missingFlowRecommendations.filter (missingFlowKeep presentTypes)).filter
          (fun r => r.priority == p)) := by
  have hconc1 : ∀ r ∈ getMissingFlowRecommendations [SectionType.preQuiz],
      r.sectionType ≠ SectionType.quiz := by
    intro r hr
    rw [getMissingFlowRecommendations, List.mem_mergeSort] at hr
    revert r
    decide
  have hconc2 : ∃ r ∈ getMissingFlowRecommendations [],
      r.sectionType = SectionType.quiz := by
    refine ⟨missingFlowRecommendations.get ⟨1, by decide⟩, ?_, by decide⟩
    rw [getMissingFlowRecommendations, List.mem_mergeSort]
    decide
  refine ⟨?_, ?_, hconc1, hconc2, ?_, ?_⟩
  · intro r hr
    rw [getMissingFlowRecommendations, List.mem_mergeSort, List.mem_filter] at hr
    rcases hr with ⟨-, hkeep⟩
    rw [missingFlowKeep] at hkeep
    intro hmem
    have : presentTypes.contains r.sectionType = true := by simpa using hmem
    rw [this] at hkeep
    simp at hkeep
  · intro hpre r hr hquiz
    rw [getMissingFlowRecommendations, List.mem_mergeSort, List.mem_filter] at hr
    rcases hr with ⟨-, hkeep⟩
    rw [missingFlowKeep] at hkeep
    split at hkeep
    · exact absurd hkeep (by simp)
    · split at hkeep
      · exact absurd hkeep (by simp)
      · rename_i hcond
        apply hcond
        simp only [Bool.and_eq_true, Bool.or_eq_true, beq_iff_eq]
        refine ⟨hquiz, ?_⟩
        rcases hpre with h | h
        · exact Or.inl (by simpa using h)
        · exact Or.inr (by simpa using h)
  · have := @List.sorted_mergeSort MissingFlowRecommendation
      (fun a b =>
        decide (priorityOrder a.priority ≤ priorityOrder b.priority))
      missingFlow_le_trans missingFlow_le_total
      (missingFlowRecommendations.filter (missingFlowKeep presentTypes))
    rw [getMissingFlowRecommendations]
    exact this.imp (by simp)
  · intro p
    rw [getMissingFlowRecommendations]
    set L := missingFlowRecommendations.filter (missingFlowKeep presentTypes) with hL
    set O := L.mergeSort
      (fun a b => decide (priorityOrder a.priority ≤ priorityOrder b.priority)) with hO
    have hFpair :
        List.Pairwise
          (fun a b : MissingFlowRecommendation =>
            (decide (priorityOrder a.priority ≤ priorityOrder b.priority)) = true)
          (L.filter fun r => r.priority == p) := by
      apply List.pairwise_of_forall_mem_list
      intro a ha b hb
      rw [List.mem_filter] at ha hb
      have hap : a.priority = p := by simpa using ha.2
      have hbp : b.priority = p := by simpa using hb.2
      simp [hap, hbp]
    have hsub : List.Sublist (L.filter fun r => r.priority == p) O :=
      List.sublist_mergeSort missingFlow_le_trans missingFlow_le_total hFpair
        (List.filter_sublist L)
    have hself : ((L.filter fun r => r.priority == p).filter
        fun r => r.priority == p) = L.filter fun r => r.priority == p := by
      rw [List.filter_eq_self]
      intro a ha
      exact (List.mem_filter.mp ha).2
    have h4 := List.Sublist.filter (fun r : MissingFlowRecommendation => r.priority == p) hsub
    rw [hself] at h4
    have hperm : (O.filter fun r => r.priority == p).Perm
        (L.filter fun r => r.priority == p) :=
      List.Perm.filter _ (List.mergeSort_perm L _)
    exact (h4.eq_of_length hperm.length_eq.symm).symm

theorem getMissingFlowRecommendations_spec_witness :
    (SectionType.preQuiz ∈ [SectionType.preQuiz] ∨
      SectionType.postQuiz ∈ [SectionType.preQuiz]) ∧
    (∀ r ∈ getMissingFlowRecommendations [SectionType.preQuiz],
      r.sectionType ≠ SectionType.quiz) :=
  ⟨Or.inl (by decide),
    (getMissingFlowRecommendations_spec [SectionType.preQuiz]).2.1
      (Or.inl (by decide))⟩

/-! ## Applicability pre-filtering of the prompt (claim C9) -/

/-- C9: the prompt's rubric listing is generated from exactly the
applicable principle ids (definitional in `buildPrompt`); `interleaving`
is not applicable to `pre-quiz` but is applicable to `post-quiz`, and
concretely the full prompt built for the section "Pre-Lesson Quiz"
(classified `pre-quiz`) never mentions `interleaving`, while the prompt
built for "Post-Lesson Quiz" (classified `post-quiz`) does. -/
theorem buildPrompt_interleaving_spec :
    detectSectionType "Pre-Lesson Quiz" = SectionType.preQuiz ∧
    detectSectionType "Post-Lesson Quiz" = SectionType.postQuiz ∧
    "interleaving" ∉ applicableIdsFor SectionType.preQuiz ∧
    "interleaving" ∈ applicableIdsFor SectionType.postQuiz ∧
    hasSubstr (codes "interleaving")
      (codes (buildPrompt (some "Pre-Lesson Quiz")
        (some SectionType.preQuiz) none [])) = false ∧
    hasSubstr (codes "interleaving")
      (codes (buildPrompt (some "Post-Lesson Quiz")
        (some SectionType.postQuiz) none [])) = true := by
  refine ⟨by decide, by decide, by decide, by decide, ?_, ?_⟩
  · set_option maxRecDepth 40000 in decide
  · set_option maxRecDepth 40000 in decide

/-! ## Aggregation: `combinedAiScores` against the spec's description (claim C1) -/

theorem combineWith_score (s : AIScore) (n : String) :
    (combineWith s n).score = s.score := rfl

theorem mergeBest_none_right (a : Option CombinedScore) :
    mergeBest a none = a := by
  cases a <;> rfl

theorem mergeBest_assoc (a b c : Option CombinedScore) :
    mergeBest (mergeBest a b) c = mergeBest a (mergeBest b c) := by
  cases a with
  | none => rfl
  | some x =>
    cases b with
    | none => rfl
    | some y =>
      cases c with
      | none => rw [mergeBest_none_right, mergeBest_none_right]
      | some z =>
        by_cases h1 : y.score > x.score <;>
          by_cases h2 : z.score > y.score <;>
          by_cases h3 : z.score > x.score <;>
          simp [mergeBest, h1, h2, h3] <;> omega

theorem maxQualifyingScore_cons (e : String × AIScore)
    (tail : List (String × AIScore)) :
    maxQualifyingScore (e :: tail) = max e.2.score (maxQualifyingScore tail) :=
  rfl

theorem score_le_maxQualifyingScore {l : List (String × AIScore)}
    {x : String × AIScore} (hx : x ∈ l) :
    x.2.score ≤ maxQualifyingScore l := by
  induction l with
  | nil => cases hx
  | cons e tail ih =>
    rw [maxQualifyingScore_cons]
    rcases List.mem_cons.mp hx with h | h
    · subst h; exact Nat.le_max_left _ _
    · exact Nat.le_trans (ih h) (Nat.le_max_right _ _)

theorem specAggregatedRating_isSome {l : List (String × AIScore)} (h : l ≠ []) :
    ∃ c, specAggregatedRating l = some c ∧ c.score = maxQualifyingScore l := by
  have hex : ∃ x ∈ l, maxQualifyingScore l ≤ x.2.score := by
    induction l with
    | nil => cases h rfl
    | cons e tail ih =>
      rcases List.eq_nil_or_concat tail with htail | -
      · subst htail
        exact ⟨e, List.mem_singleton.mpr rfl, by
          rw [maxQualifyingScore_cons]
          simp [maxQualifyingScore]⟩
      · rcases Nat.le_total (maxQualifyingScore tail) e.2.score with hle | hle
        · exact ⟨e, List.mem_cons_self _ _, by
            rw [maxQualifyingScore_cons]
            omega⟩
        · by_cases htail : tail = []
          · subst htail
            exact ⟨e, List.mem_cons_self _ _, by
              rw [maxQualifyingScore_cons]
              simp [maxQualifyingScore]⟩
          · rcases ih htail with ⟨x, hx, hxs⟩
            exact ⟨x, List.mem_cons_of_mem _ hx, by
              rw [maxQualifyingScore_cons]
              omega⟩
  have hsome : (l.find? fun e => maxQualifyingScore l ≤ e.2.score).isSome := by
    rw [List.find?_isSome]
    rcases hex with ⟨x, hx, hxs⟩
    exact ⟨x, hx, by simpa using hxs⟩
  rcases Option.isSome_iff_exists.mp hsome with ⟨e, he⟩
  refine ⟨combineWith e.2 e.1, ?_, ?_⟩
  · rw [specAggregatedRating, he]
    rfl
  · have h1 : maxQualifyingScore l ≤ e.2.score := by
      simpa using List.find?_some he
    have h2 := score_le_maxQualifyingScore (List.mem_of_find?_eq_some he)
    rw [combineWith_score]
    omega

theorem specAggregatedRating_cons (e : String × AIScore)
    (tail : List (String × AIScore)) :
    specAggregatedRating (e :: tail) =
      mergeBest (some (combineWith e.2 e.1)) (specAggregatedRating tail) := by
  by_cases htail : tail = []
  · subst htail
    have hle : maxQualifyingScore [e] ≤ e.2.score := by
      rw [maxQualifyingScore_cons]
      simp [maxQualifyingScore]
    rw [specAggregatedRating, List.find?_cons_of_pos _ (by simpa using hle)]
    rfl
  · rcases specAggregatedRating_isSome htail with ⟨c, hc, hcs⟩
    rcases Nat.le_total (maxQualifyingScore tail) e.2.score with hle | hle
    · have hmax : maxQualifyingScore (e :: tail) = e.2.score := by
        rw [maxQualifyingScore_cons]
        omega
      rw [specAggregatedRating, hmax]
      rw [List.find?_cons_of_pos _ (by simp)]
      rw [hc, mergeBest]
      rw [if_neg (by rw [hcs, combineWith_score]; omega)]
      rfl
    · by_cases heq : maxQualifyingScore tail = e.2.score
      · have hmax : maxQualifyingScore (e :: tail) = e.2.score := by
          rw [maxQualifyingScore_cons]
          omega
        rw [specAggregatedRating, hmax]
        rw [List.find?_cons_of_pos _ (by simp)]
        rw [hc, mergeBest]
        rw [if_neg (by rw [hcs, combineWith_score]; omega)]
        rfl
      · have hlt : e.2.score < maxQualifyingScore tail := by omega
        have hmax : maxQualifyingScore (e :: tail) = maxQualifyingScore tail := by
          rw [maxQualifyingScore_cons]
          omega
        rw [specAggregatedRating, hmax]
        rw [List.find?_cons_of_neg _ (by simp; omega)]
        rw [show (List.find? (fun x => decide (maxQualifyingScore tail ≤ x.2.score)) tail).map
              (fun x => combineWith x.2 x.1) = specAggregatedRating tail from rfl]
        rw [hc, mergeBest]
        rw [if_pos (by rw [hcs, combineWith_score]; omega)]

theorem foldl_mergeBest_shift (f : SectionResult → Option CombinedScore)
    (l : List SectionResult) :
    ∀ a : Option CombinedScore,
      l.foldl (fun acc r => mergeBest acc (f r)) a =
        mergeBest a (l.foldl (fun acc r => mergeBest acc (f r)) none) := by
  induction l with
  | nil => intro a; rw [List.foldl_nil, List.foldl_nil, mergeBest_none_right]
  | cons r rest ih =>
    intro a
    rw [List.foldl_cons, List.foldl_cons, ih (mergeBest a (f r)),
      ih (mergeBest none (f r)), mergeBest_assoc]
    rfl

theorem bestScoreFor_eq_foldl_mergeBest (sectionResults : List SectionResult)
    (principleId : String) :
    bestScoreFor sectionResults principleId =
      sectionResults.foldl
        (fun acc r => mergeBest acc (qualCandidate principleId r)) none := by
  rw [bestScoreFor]
  apply List.foldl_ext
  intro acc r _
  rw [qualCandidate]
  cases hlook : recordLookup r.scores principleId with
  | none => rw [mergeBest_none_right]
  | some score =>
    by_cases hq : (!score.notApplicable && decide (score.score > 0)) = true
    · simp only []
      rw [if_pos hq, if_pos hq]
      cases acc with
      | none => rfl
      | some best => rfl
    · simp only []
      rw [if_neg hq, if_neg hq, mergeBest_none_right]

theorem qualifyingEntries_cons_none (r : SectionResult)
    (rest : List SectionResult) (principleId : String)
    (h : recordLookup r.scores principleId = none) :
    qualifyingEntries (r :: rest) principleId =
      qualifyingEntries rest principleId := by
  rw [qualifyingEntries, qualifyingEntries, List.filterMap_cons]
  simp only [h]

theorem qualifyingEntries_cons_some (r : SectionResult)
    (rest : List SectionResult) (principleId : String) (score : AIScore)
    (hlook : recordLookup r.scores principleId = some score)
    (hq : (!score.notApplicable && decide (score.score > 0)) = true) :
    qualifyingEntries (r :: rest) principleId =
      (r.sectionName, score) :: qualifyingEntries rest principleId := by
  rw [qualifyingEntries, qualifyingEntries, List.filterMap_cons]
  simp only [hlook, hq, if_pos]

theorem qualifyingEntries_cons_nonqual (r : SectionResult)
    (rest : List SectionResult) (principleId : String) (score : AIScore)
    (hlook : recordLookup r.scores principleId = some score)
    (hq : ¬(!score.notApplicable && decide (score.score > 0)) = true) :
    qualifyingEntries (r :: rest) principleId =
      qualifyingEntries rest principleId := by
  rw [qualifyingEntries, qualifyingEntries, List.filterMap_cons]
  simp only [hlook, if_neg hq]

theorem bestScoreFor_eq_specAggregated (sectionResults : List SectionResult)
    (principleId : String) :
    bestScoreFor sectionResults principleId =
      specAggregatedRating (qualifyingEntries sectionResults principleId) := by
  rw [bestScoreFor_eq_foldl_mergeBest]
  induction sectionResults with
  | nil => rfl
  | cons r rest ih =>
    rw [List.foldl_cons, foldl_mergeBest_shift, ih]
    cases hlook : recordLookup r.scores principleId with
    | none =>
      rw [qualifyingEntries_cons_none r rest principleId hlook]
      rw [show qualCandidate principleId r = none from by
        rw [qualCandidate, hlook]]
      rfl
    | some score =>
      by_cases hq : (!score.notApplicable && decide (score.score > 0)) = true
      · rw [qualifyingEntries_cons_some r rest principleId score hlook hq]
        rw [show qualCandidate principleId r =
            some (combineWith score r.sectionName) from by
          rw [qualCandidate, hlook]
          simp only []
          rw [if_pos hq]]
        rw [specAggregatedRating_cons]
        rfl
      · rw [qualifyingEntries_cons_nonqual r rest principleId score hlook hq]
        rw [show qualCandidate principleId r = none from by
          rw [qualCandidate, hlook]
          simp only []
          rw [if_neg hq]]
        rfl

/-- C1: for every list of section results and every principle, the
aggregated rating equals the spec's description — the qualifying entry
(applicable, score > 0) with the maximum score, first section winning
ties, annotated with its section name, and absent when nothing qualifies;
and `combinedAiScores` is exactly the per-catalog-principle record of
these aggregated ratings, omitting unrated principles. -/
theorem combinedAiScores_spec (principles : List Principle)
    (sectionResults : List SectionResult) (principleId : String)
    (h : sectionResults ≠ []) :
    bestScoreFor sectionResults principleId =
      specAggregatedRating (qualifyingEntries sectionResults principleId) ∧
    combinedAiScores principles sectionResults =
      some (principles.filterMap fun p =>
        (specAggregatedRating (qualifyingEntries sectionResults p.id)).map
          fun b => (p.id, b)) := by
  constructor
  · exact bestScoreFor_eq_specAggregated sectionResults principleId
  · rw [combinedAiScores]
    rw [if_neg (by simpa using h)]
    simp only [bestScoreFor_eq_specAggregated]

theorem combinedAiScores_spec_witness :
    ([⟨"a", "A", [("retrieval-practice", ⟨3, "", Confidence.high, false⟩)]⟩,
      ⟨"b", "B", [("retrieval-practice", ⟨4, "", Confidence.high, false⟩)]⟩,
      ⟨"c", "C", [("retrieval-practice", ⟨0, "", Confidence.high, true⟩)]⟩] :
        List SectionResult) ≠ [] ∧
    bestScoreFor
      [⟨"a", "A", [("retrieval-practice", ⟨3, "", Confidence.high, false⟩)]⟩,
       ⟨"b", "B", [("retrieval-practice", ⟨4, "", Confidence.high, false⟩)]⟩,
       ⟨"c", "C", [("retrieval-practice", ⟨0, "", Confidence.high, true⟩)]⟩]
      "retrieval-practice" =
      specAggregatedRating (qualifyingEntries
        [⟨"a", "A", [("retrieval-practice", ⟨3, "", Confidence.high, false⟩)]⟩,
         ⟨"b", "B", [("retrieval-practice", ⟨4, "", Confidence.high, false⟩)]⟩,
         ⟨"c", "C", [("retrieval-practice", ⟨0, "", Confidence.high, true⟩)]⟩]
        "retrieval-practice") :=
  ⟨by decide,
    (combinedAiScores_spec []
      [⟨"a", "A", [("retrieval-practice", ⟨3, "", Confidence.high, false⟩)]⟩,
       ⟨"b", "B", [("retrieval-practice", ⟨4, "", Confidence.high, false⟩)]⟩,
       ⟨"c", "C", [("retrieval-practice", ⟨0, "", Confidence.high, true⟩)]⟩]
      "retrieval-practice" (by decide)).1⟩

/-! ## Unrated principles are excluded everywhere (claim C3) -/

theorem prefillFold_zero (principleId : String) :
    ∀ sectionResults : List SectionResult,
      qualifyingEntries sectionResults principleId = [] →
      sectionResults.foldl
        (fun bestScore result =>
          match recordLookup result.scores principleId with
          | some score =>
            if !score.notApplicable && score.score > bestScore then score.score
            else bestScore
          | none => bestScore) 0 = 0 := by
  intro sectionResults
  induction sectionResults with
  | nil => intro _; rfl
  | cons r rest ih =>
    intro h
    rw [List.foldl_cons]
    cases hlook : recordLookup r.scores principleId with
    | none =>
      rw [qualifyingEntries_cons_none r rest principleId hlook] at h
      simp only [hlook]
      exact ih h
    | some score =>
      by_cases hq : (!score.notApplicable && decide (score.score > 0)) = true
      · rw [qualifyingEntries_cons_some r rest principleId score hlook hq] at h
        cases h
      · rw [qualifyingEntries_cons_nonqual r rest principleId score hlook hq] at h
        simp only [hlook]
        rw [if_neg hq]
        exact ih h

theorem recordLookup_prefill_none (principles : List Principle)
    (sectionResults : List SectionResult) (p : Principle)
    (hp : p ∈ principles)
    (hq : qualifyingEntries sectionResults p.id = []) :
    recordLookup (prefillRatings principles sectionResults) p.id = some none := by
  induction principles with
  | nil => cases hp
  | cons q rest ih =>
    by_cases hqi : q.id = p.id
    · rw [prefillRatings, List.map_cons, recordLookup,
        List.find?_cons_of_pos _ (by simpa using hqi)]
      simp only [Option.map]
      rw [hqi, prefillFold_zero p.id sectionResults hq]
      rfl
    · rw [prefillRatings, List.map_cons, recordLookup,
        List.find?_cons_of_neg _ (by simpa using hqi)]
      rcases List.mem_cons.mp hp with h | h
      · exact absurd (by rw [h]) hqi
      · exact ih h

theorem ratedEntries_append_none (l₁ l₂ : List (String × Option Nat))
    (principleId : String) :
    ratedEntries (l₁ ++ (principleId, none) :: l₂) = ratedEntries (l₁ ++ l₂) := by
  rw [ratedEntries, ratedEntries, List.filterMap_append, List.filterMap_append,
    List.filterMap_cons]
  rfl

theorem mem_ratedEntries {ratings : List (String × Option Nat)}
    {e : String × Nat} (h : e ∈ ratedEntries ratings) :
    (e.1, some e.2) ∈ ratings := by
  rw [ratedEntries, List.mem_filterMap] at h
  rcases h with ⟨a, ha, hae⟩
  cases a with
  | mk k v =>
    cases v with
    | none => cases hae
    | some s =>
      simp only [Option.map] at hae
      cases hae
      exact ha

theorem recordLookup_of_mem {ratings : List (String × Option Nat)}
    {k : String} {a : Option Nat}
    (hnodup : (ratings.map Prod.fst).Nodup)
    (hmem : (k, a) ∈ ratings) : recordLookup ratings k = some a := by
  induction ratings with
  | nil => cases hmem
  | cons e rest ih =>
    rw [List.map_cons, List.nodup_cons] at hnodup
    rcases List.mem_cons.mp hmem with h | h
    · subst h
      rw [recordLookup, List.find?_cons_of_pos _ (by simp)]
      rfl
    · by_cases hk : e.1 = k
      · exfalso
        apply hnodup.1
        rw [hk]
        exact List.mem_map.mpr ⟨(k, a), h, rfl⟩
      · rw [recordLookup, List.find?_cons_of_neg _ (by simpa using hk)]
        exact ih hnodup.2 h

/-- C3: a principle with no qualifying entry has no aggregated rating and a
`null` pre-filled rating; a `null`-rated principle never contributes to
`results` (neither to gaps, nor strengths, nor the average's numerator or
denominator — dropping its entry leaves `results` unchanged). -/
theorem unratedExclusion_spec :
    (∀ (principles : List Principle) (sectionResults : List SectionResult)
        (p : Principle), p ∈ principles →
      qualifyingEntries sectionResults p.id = [] →
      bestScoreFor sectionResults p.id = none ∧
        recordLookup (prefillRatings principles sectionResults) p.id =
          some none) ∧
    (∀ (principles : List Principle)
        (combinedAi : Option (List (String × CombinedScore)))
        (l₁ l₂ : List (String × Option Nat)) (principleId : String),
      resultsOf principles combinedAi (l₁ ++ (principleId, none) :: l₂) =
        resultsOf principles combinedAi (l₁ ++ l₂)) ∧
    (∀ (principles : List Principle)
        (combinedAi : Option (List (String × CombinedScore)))
        (ratings : List (String × Option Nat)) (principleId : String)
        (rv : ResultsView),
      (ratings.map Prod.fst).Nodup →
      recordLookup ratings principleId = some none →
      resultsOf principles combinedAi ratings = some rv →
      principleId ∉ rv.gaps.map (fun g => g.id) ∧
        principleId ∉ rv.strengths.map (fun s => s.id)) := by
  refine ⟨?_, ?_, ?_⟩
  · intro principles sectionResults p hp hq
    refine ⟨?_, recordLookup_prefill_none principles sectionResults p hp hq⟩
    rw [bestScoreFor_eq_specAggregated, hq]
    rfl
  · intro principles combinedAi l₁ l₂ principleId
    simp only [resultsOf, ratedEntries_append_none]
  · intro principles combinedAi ratings principleId rv hnodup hlook hres
    have hrated : ∀ e ∈ ratedEntries ratings, e.1 ≠ principleId := by
      intro e he heq
      have hmem := mem_ratedEntries he
      rw [heq] at hmem
      have := recordLookup_of_mem hnodup hmem
      rw [hlook] at this
      cases this
    rw [resultsOf] at hres
    split at hres
    · cases hres
    · injection hres with hres
      subst hres
      constructor
      · intro hmem
        rcases List.mem_map.mp hmem with ⟨g, hg, hgid⟩
        rw [List.mem_mergeSort, List.mem_map] at hg
        rcases hg with ⟨e, he, hge⟩
        have he' := List.mem_filter.mp he
        apply hrated e he'.1
        rw [← hgid, ← hge]
        rfl
      · intro hmem
        rcases List.mem_map.mp hmem with ⟨g, hg, hgid⟩
        rw [List.mem_mergeSort, List.mem_map] at hg
        rcases hg with ⟨e, he, hge⟩
        have he' := List.mem_filter.mp he
        apply hrated e he'.1
        rw [← hgid, ← hge]
        rfl

theorem unratedExclusion_spec_witness :
    (⟨"p1", "P1", Category.memoryRetention, ""⟩ : Principle) ∈
      [(⟨"p1", "P1", Category.memoryRetention, ""⟩ : Principle)] ∧
    qualifyingEntries
      [(⟨"s", "S", [("p1", ⟨0, "", Confidence.high, true⟩)]⟩ : SectionResult)]
      "p1" = [] ∧
    (bestScoreFor
        [(⟨"s", "S", [("p1", ⟨0, "", Confidence.high, true⟩)]⟩ : SectionResult)]
        "p1" = none ∧
      recordLookup
        (prefillRatings [⟨"p1", "P1", Category.memoryRetention, ""⟩]
          [⟨"s", "S", [("p1", ⟨0, "", Confidence.high, true⟩)]⟩])
        "p1" = some none) :=
  ⟨by decide, by decide,
    unratedExclusion_spec.1
      [⟨"p1", "P1", Category.memoryRetention, ""⟩]
      [⟨"s", "S", [("p1", ⟨0, "", Confidence.high, true⟩)]⟩]
      ⟨"p1", "P1", Category.memoryRetention, ""⟩
      (by decide) (by decide)⟩

/-! ## Legacy share-link round trip (claim C5) -/

theorem splitComma_nocomma (s : List Char) (h : ∀ c ∈ s, c ≠ ',') :
    splitComma s = [s] := by
  induction s with
  | nil => rfl
  | cons c rest ih =>
    rw [splitComma]
    rw [if_neg (h c (List.mem_cons_self _ _))]
    rw [ih fun c hc => h c (List.mem_cons_of_mem _ hc)]

theorem splitComma_append (s rest : List Char) (h : ∀ c ∈ s, c ≠ ',') :
    splitComma (s ++ ',' :: rest) = s :: splitComma rest := by
  induction s with
  | nil =>
    rw [List.nil_append, splitComma, if_pos rfl]
  | cons c s' ih =>
    rw [List.cons_append, splitComma]
    rw [if_neg (h c (List.mem_cons_self _ _))]
    rw [ih fun c hc => h c (List.mem_cons_of_mem _ hc)]

theorem splitComma_joinComma :
    ∀ parts : List String, parts ≠ [] →
      (∀ p ∈ parts, ∀ c ∈ p.data, c ≠ ',') →
      splitComma (joinComma parts).data = parts.map String.data := by
  intro parts
  induction parts with
  | nil => intro h; cases h rfl
  | cons s rest ih =>
    intro _ h
    cases rest with
    | nil =>
      rw [joinComma, List.map]
      exact splitComma_nocomma s.data (h s (List.mem_cons_self _ _))
    | cons s' rest' =>
      rw [joinComma, String.data_append, String.data_append]
      rw [show (",".data : List Char) = [','] from rfl]
      rw [List.append_assoc, List.singleton_append]
      rw [splitComma_append _ _ (h s (List.mem_cons_self _ _))]
      rw [List.map]
      have hih := ih (by intro hh; cases hh)
        fun p hp => h p (List.mem_cons_of_mem _ hp)
      rw [hih]
      intro hh
      cases hh

theorem digitRepr_spec (n : Nat) (hn : n ≤ 5) :
    (∀ c ∈ (Nat.repr n).data, c ≠ ',') ∧ parseIntDec (Nat.repr n).data = n := by
  interval_cases n <;> exact ⟨by decide, by decide⟩

/-- C5: encoding a ratings map against the catalog order (null encoding as
`0`) and decoding against the same order reconstructs the original map,
with `0` decoding to null, under the data model's score range 1–5. -/
theorem shareLegacy_roundTrip (principles : List Principle)
    (ratings : List (String × Option Nat))
    (hvals : ∀ p ∈ principles, ∀ s : Nat,
      recordLookup ratings p.id = some (some s) → 1 ≤ s ∧ s ≤ 5) :
    shareLegacyDecode principles (shareLegacyEncode principles ratings) =
      principles.map fun p => (p.id, (recordLookup ratings p.id).getD none) := by
  by_cases hne : principles = []
  · subst hne
    rfl
  · have hdle : ∀ p ∈ principles,
        ((recordLookup ratings p.id).getD none).getD 0 ≤ 5 := by
      intro p hp
      cases hl : recordLookup ratings p.id with
      | none => simp
      | some v =>
        cases v with
        | none => simp
        | some s => simpa using (hvals p hp s hl).2
    have hsplit : splitComma (shareLegacyEncode principles ratings).data =
        (principles.map fun p =>
          Nat.repr (((recordLookup ratings p.id).getD none).getD 0)).map
            String.data := by
      rw [shareLegacyEncode]
      apply splitComma_joinComma
      · simpa using hne
      · intro q hq c hc
        rcases List.mem_map.mp hq with ⟨p, hp, rfl⟩
        exact (digitRepr_spec _ (hdle p hp)).1 c hc
    have hscores : (splitComma (shareLegacyEncode principles ratings).data).map
        parseIntDec =
        principles.map fun p => ((recordLookup ratings p.id).getD none).getD 0 := by
      rw [hsplit, List.map_map, List.map_map]
      apply List.map_congr_left
      intro p hp
      exact (digitRepr_spec _ (hdle p hp)).2
    simp only [shareLegacyDecode]
    rw [hscores]
    apply List.ext_getElem
    · rw [List.length_mapIdx, List.length_map]
    · intro i h1 h2
      have hi : i < principles.length := by
        rw [List.length_mapIdx] at h1
        exact h1
      rw [List.getElem_mapIdx, List.getElem_map]
      have hget : (principles.map fun p =>
          ((recordLookup ratings p.id).getD none).getD 0)[i]? =
          some (((recordLookup ratings principles[i].id).getD none).getD 0) := by
        rw [List.getElem?_map, List.getElem?_eq_getElem hi]
        rfl
      rw [hget]
      have hp : principles[i] ∈ principles := List.getElem_mem hi
      cases hl : recordLookup ratings principles[i].id with
      | none =>
        simp only [hl]
        rfl
      | some v =>
        cases v with
        | none =>
          simp only [hl]
          rfl
        | some s =>
          have hs := hvals principles[i] hp s hl
          simp only [hl]
          rw [if_pos (by simpa using hs.1)]
          rfl

theorem shareLegacy_roundTrip_witness :
    (∀ p ∈ ([⟨"p1", "P1", Category.memoryRetention, ""⟩,
        ⟨"p2", "P2", Category.memoryRetention, ""⟩,
        ⟨"p3", "P3", Category.memoryRetention, ""⟩] : List Principle),
      ∀ s : Nat,
        recordLookup [("p1", some 4), ("p2", none), ("p3", some 2)] p.id =
          some (some s) → 1 ≤ s ∧ s ≤ 5) ∧
    shareLegacyEncode
      [⟨"p1", "P1", Category.memoryRetention, ""⟩,
       ⟨"p2", "P2", Category.memoryRetention, ""⟩,
       ⟨"p3", "P3", Category.memoryRetention, ""⟩]
      [("p1", some 4), ("p2", none), ("p3", some 2)] = "4,0,2" ∧
    shareLegacyDecode
      [⟨"p1", "P1", Category.memoryRetention, ""⟩,
       ⟨"p2", "P2", Category.memoryRetention, ""⟩,
       ⟨"p3", "P3", Category.memoryRetention, ""⟩]
      (shareLegacyEncode
        [⟨"p1", "P1", Category.memoryRetention, ""⟩,
         ⟨"p2", "P2", Category.memoryRetention, ""⟩,
         ⟨"p3", "P3", Category.memoryRetention, ""⟩]
        [("p1", some 4), ("p2", none), ("p3", some 2)]) =
      [("p1", some 4), ("p2", none), ("p3", some 2)] := by
  have hv : ∀ p ∈ ([⟨"p1", "P1", Category.memoryRetention, ""⟩,
      ⟨"p2", "P2", Category.memoryRetention, ""⟩,
      ⟨"p3", "P3", Category.memoryRetention, ""⟩] : List Principle),
      ∀ s : Nat,
        recordLookup [("p1", some 4), ("p2", none), ("p3", some 2)] p.id =
          some (some s) → 1 ≤ s ∧ s ≤ 5 := by
    intro p hp s hl
    fin_cases hp <;> simp_all [recordLookup] <;> omega
  refine ⟨hv, by decide, ?_⟩
  have h := shareLegacy_roundTrip
    [⟨"p1", "P1", Category.memoryRetention, ""⟩,
     ⟨"p2", "P2", Category.memoryRetention, ""⟩,
     ⟨"p3", "P3", Category.memoryRetention, ""⟩]
    [("p1", some 4), ("p2", none), ("p3", some 2)]
    hv
  rw [h]
  decide

/-! ## Fail-fast, all-or-nothing analysis runs (claim C6) -/

theorem analyzeLoop_fail
    (oracle : AuditSection → Except String (List (String × AIScore)))
    (principles : List Principle) :
    ∀ (pre : List AuditSection) (s : AuditSection) (post : List AuditSection)
      (e : String) (acc : List SectionResult),
      (∀ d ∈ pre, ∃ v, oracle d = Except.ok v) →
      oracle s = Except.error e →
      analyzeLoop oracle principles (pre ++ s :: post) acc =
        { calls := pre.map (fun d => d.name) ++ [s.name]
        , error := some e
        , sectionResults := []
        , ratings := none } := by
  intro pre
  induction pre with
  | nil =>
    intro s post e acc _ hs
    rw [List.nil_append, analyzeLoop, hs]
    rfl
  | cons d pre' ih =>
    intro s post e acc hpre hs
    rcases hpre d (List.mem_cons_self _ _) with ⟨v, hv⟩
    rw [List.cons_append, analyzeLoop, hv]
    simp only []
    rw [ih s post e _ (fun d' hd' => hpre d' (List.mem_cons_of_mem _ hd')) hs]
    rw [List.map_cons, List.cons_append]

/-- C6: section analysis is sequential and fail-fast: when the oracle
succeeds on every section before `s` (those with images) and fails on `s`,
the run calls the oracle exactly on those sections and `s` — aborting all
later sections — and ends with the error recorded, an empty
`sectionResults` list (the results accumulated in that run are discarded;
the list was cleared when the run began), and the ratings untouched. -/
theorem analyzeSectionsRun_failFast
    (oracle : AuditSection → Except String (List (String × AIScore)))
    (principles : List Principle) (sections : List AuditSection)
    (pre : List AuditSection) (s : AuditSection) (post : List AuditSection)
    (e : String)
    (hsplit : sections.filter (fun t => t.images.length > 0) = pre ++ s :: post)
    (hpre : ∀ d ∈ pre, ∃ v, oracle d = Except.ok v)
    (hs : oracle s = Except.error e) :
    analyzeSectionsRun oracle principles sections =
      some { calls := pre.map (fun d => d.name) ++ [s.name]
           , error := some e
           , sectionResults := []
           , ratings := none } := by
  rw [analyzeSectionsRun]
  simp only [hsplit]
  rw [if_neg (by simp)]
  rw [analyzeLoop_fail oracle principles pre s post e [] hpre hs]

theorem analyzeSectionsRun_failFast_witness :
    (([⟨"s1", "S1", ["img1"], ""⟩, ⟨"s2", "S2", ["img2"], ""⟩,
        ⟨"s3", "S3", ["img3"], ""⟩] : List AuditSection).filter
        (fun t => t.images.length > 0) =
      [⟨"s1", "S1", ["img1"], ""⟩] ++
        (⟨"s2", "S2", ["img2"], ""⟩ : AuditSection) ::
          [⟨"s3", "S3", ["img3"], ""⟩]) ∧
    analyzeSectionsRun
      (fun t => if t.id == "s2" then Except.error "oracle down" else Except.ok [])
      []
      [⟨"s1", "S1", ["img1"], ""⟩, ⟨"s2", "S2", ["img2"], ""⟩,
        ⟨"s3", "S3", ["img3"], ""⟩] =
      some { calls := ["S1", "S2"]
           , error := some "oracle down"
           , sectionResults := []
           , ratings := none } := by
  constructor
  · decide
  · exact analyzeSectionsRun_failFast
      (fun t => if t.id == "s2" then Except.error "oracle down" else Except.ok [])
      []
      [⟨"s1", "S1", ["img1"], ""⟩, ⟨"s2", "S2", ["img2"], ""⟩,
        ⟨"s3", "S3", ["img3"], ""⟩]
      [⟨"s1", "S1", ["img1"], ""⟩] ⟨"s2", "S2", ["img2"], ""⟩
      [⟨"s3", "S3", ["img3"], ""⟩] "oracle down"
      (by decide)
      (by
        intro d hd
        refine ⟨[], ?_⟩
        fin_cases hd
        rfl)
      (by rfl)

/-! ## Refinement failure leaves scores intact (claim C7) -/

/-- C7: when the refinement call fails, `handleFollowUpComplete` reports
the error and ends the flow (`showFollowUp` and `isRefining` cleared) with
the ratings map and the refined-score list exactly as they were before —
never a partially updated rating set. -/
theorem handleFollowUpComplete_failure
    (combinedAi : Option (List (String × CombinedScore)))
    (st : FollowUpState) (e : String) :
    (handleFollowUpComplete combinedAi st (Except.error e)).ratings =
        st.ratings ∧
    (handleFollowUpComplete combinedAi st (Except.error e)).refinedScores =
        st.refinedScores ∧
    (combinedAi ≠ none →
      (handleFollowUpComplete combinedAi st (Except.error e)).error = some e ∧
      (handleFollowUpComplete combinedAi st (Except.error e)).showFollowUp =
        false ∧
      (handleFollowUpComplete combinedAi st (Except.error e)).isRefining =
        false) := by
  cases combinedAi with
  | none => exact ⟨rfl, rfl, fun h => absurd rfl h⟩
  | some c => exact ⟨rfl, rfl, fun _ => ⟨rfl, rfl, rfl⟩⟩

theorem handleFollowUpComplete_failure_witness :
    (some [("p1", ⟨2, "low", Confidence.medium, false, "S1"⟩)] ≠
      (none : Option (List (String × CombinedScore)))) ∧
    (handleFollowUpComplete
        (some [("p1", ⟨2, "low", Confidence.medium, false, "S1"⟩)])
        ⟨[("p1", some 2)], [], none, true, true⟩
        (Except.error "refine failed")).ratings = [("p1", some 2)] ∧
    (handleFollowUpComplete
        (some [("p1", ⟨2, "low", Confidence.medium, false, "S1"⟩)])
        ⟨[("p1", some 2)], [], none, true, true⟩
        (Except.error "refine failed")).error = some "refine failed" := by
  have h := handleFollowUpComplete_failure
    (some [("p1", ⟨2, "low", Confidence.medium, false, "S1"⟩)])
    ⟨[("p1", some 2)], [], none, true, true⟩ "refine failed"
  exact ⟨by decide, h.1, (h.2.2 (by decide)).1⟩

/-! ## Catalog completeness of a section's score map (claim C4) -/

theorem lookup_isSome_of_mem_keys {α : Type} {m : List (String × α)}
    {k : String} (h : k ∈ m.map Prod.fst) : (recordLookup m k).isSome := by
  rcases List.mem_map.mp h with ⟨e, he, hek⟩
  have hf : (List.find? (fun e => e.1 == k) m).isSome :=
    List.find?_isSome.mpr ⟨e, he, by simp [hek]⟩
  rcases Option.isSome_iff_exists.mp hf with ⟨x, hx⟩
  rw [recordLookup, hx]
  rfl

theorem lookup_eq_none_of_not_mem_keys {α : Type} {m : List (String × α)}
    {k : String} (h : k ∉ m.map Prod.fst) : recordLookup m k = none := by
  rw [recordLookup, List.find?_eq_none.mpr ?_]
  · rfl
  · intro x hx hpx
    exact h (List.mem_map.mpr ⟨x, hx, by simpa using hpx⟩)

theorem recordLookup_append {α : Type} (m m' : List (String × α)) (k : String) :
    recordLookup (m ++ m') k =
      (recordLookup m k).or (recordLookup m' k) := by
  simp only [recordLookup]
  rw [List.find?_append]
  cases List.find? (fun e => e.1 == k) m <;> rfl

theorem recordSet_not_mem {α : Type} {m : List (String × α)} {k : String}
    (v : α) (h : k ∉ m.map Prod.fst) : recordSet m k v = m ++ [(k, v)] := by
  have hf : List.find? (fun e => e.1 == k) m = none :=
    List.find?_eq_none.mpr fun x hx hpx =>
      h (List.mem_map.mpr ⟨x, hx, by simpa using hpx⟩)
  rw [recordSet, hf]
  rfl

theorem markLoop_spec (t : SectionType) :
    ∀ (ids : List String) (acc : List (String × AIScore)),
      ids.Nodup →
      (∀ pid ∈ ids, (applicableIdsFor t).contains pid = false →
        pid ∉ acc.map Prod.fst) →
      ((ids.foldl
          (fun acc principleId =>
            if (applicableIdsFor t).contains principleId then acc
            else recordSet acc principleId (notApplicableScore t)) acc).map
            Prod.fst =
        acc.map Prod.fst ++
          ids.filter (fun pid => !(applicableIdsFor t).contains pid)) ∧
      (∀ k ∈ acc.map Prod.fst,
        recordLookup
          (ids.foldl
            (fun acc principleId =>
              if (applicableIdsFor t).contains principleId then acc
              else recordSet acc principleId (notApplicableScore t)) acc) k =
          recordLookup acc k) ∧
      (∀ pid ∈ ids, (applicableIdsFor t).contains pid = false →
        recordLookup
          (ids.foldl
            (fun acc principleId =>
              if (applicableIdsFor t).contains principleId then acc
              else recordSet acc principleId (notApplicableScore t)) acc) pid =
          some (notApplicableScore t)) := by
  intro ids
  induction ids with
  | nil =>
    intro acc _ _
    refine ⟨by simp, fun k _ => rfl, fun pid hpid => absurd hpid (by simp)⟩
  | cons pid rest ih =>
    intro acc hnodup hacc
    rw [List.nodup_cons] at hnodup
    by_cases happ : (applicableIdsFor t).contains pid = true
    · rw [List.foldl_cons, if_pos happ]
      have hacc' : ∀ q ∈ rest, (applicableIdsFor t).contains q = false →
          q ∉ acc.map Prod.fst :=
        fun q hq => hacc q (List.mem_cons_of_mem _ hq)
      rcases ih acc hnodup.2 hacc' with ⟨ha, hb, hc⟩
      refine ⟨?_, hb, ?_⟩
      · rw [ha, List.filter_cons_of_neg (by simp only [happ, Bool.not_true]; exact Bool.false_ne_true)]
      · intro q hq hqf
        rcases List.mem_cons.mp hq with h | h
        · subst h
          rw [happ] at hqf
          cases hqf
        · exact hc q h hqf
    · have happf : (applicableIdsFor t).contains pid = false := by
        simpa using happ
      rw [List.foldl_cons, if_neg happ]
      have hnotmem : pid ∉ acc.map Prod.fst :=
        hacc pid (List.mem_cons_self _ _) happf
      rw [recordSet_not_mem _ hnotmem]
      have hacc' : ∀ q ∈ rest, (applicableIdsFor t).contains q = false →
          q ∉ (acc ++ [(pid, notApplicableScore t)]).map Prod.fst := by
        intro q hq hqf hmem
        rw [List.map_append] at hmem
        rcases List.mem_append.mp hmem with h | h
        · exact hacc q (List.mem_cons_of_mem _ hq) hqf h
        · simp only [List.map_cons, List.map_nil] at h
          rcases List.mem_singleton.mp h with h
          exact hnodup.1 (h ▸ hq)
      rcases ih (acc ++ [(pid, notApplicableScore t)]) hnodup.2 hacc' with
        ⟨ha, hb, hc⟩
      refine ⟨?_, ?_, ?_⟩
      · rw [ha, List.map_append, List.filter_cons_of_pos (by simp only [happf, Bool.not_false])]
        simp
      · intro k hk
        rw [hb k (by rw [List.map_append]; exact List.mem_append_left _ hk)]
        rw [recordLookup_append]
        rcases Option.isSome_iff_exists.mp (lookup_isSome_of_mem_keys hk) with
          ⟨v, hv⟩
        rw [hv]
        rfl
      · intro q hq hqf
        rcases List.mem_cons.mp hq with h | h
        · subst h
          rw [hb q (by
            rw [List.map_append]
            exact List.mem_append_right _ (by simp))]
          rw [recordLookup_append, lookup_eq_none_of_not_mem_keys hnotmem]
          simp [recordLookup]
        · exact hc q h hqf

/-- C4: when the oracle reply carries exactly the applicable principle ids
(the strict output format the prompt demands), the merged score map of a
successful analysis contains every catalog principle id — applicable ones
with the oracle's score, the rest explicitly marked `notApplicable: true`
with score 0 — and its size equals the catalog's size. -/
theorem analyzeResponse_complete (t : SectionType)
    (oracleScores : List (String × AIScore))
    (hkeys : oracleScores.map Prod.fst = applicableIdsFor t) :
    (∀ pid ∈ allPrincipleIds, ∃ s : AIScore,
      recordLookup (markNonApplicable t oracleScores) pid = some s ∧
        (((applicableIdsFor t).contains pid = true ∧
            recordLookup oracleScores pid = some s) ∨
          ((applicableIdsFor t).contains pid = false ∧
            s = notApplicableScore t))) ∧
    (markNonApplicable t oracleScores).length = allPrincipleIds.length := by
  have hmark : markNonApplicable t oracleScores =
      allPrincipleIds.foldl
        (fun acc principleId =>
          if (applicableIdsFor t).contains principleId then acc
          else recordSet acc principleId (notApplicableScore t)) oracleScores :=
    rfl
  have hnodup : allPrincipleIds.Nodup := by decide
  have hacc : ∀ pid ∈ allPrincipleIds,
      (applicableIdsFor t).contains pid = false →
      pid ∉ oracleScores.map Prod.fst := by
    intro pid _ hc hmem
    rw [hkeys] at hmem
    have : (applicableIdsFor t).contains pid = true := by simpa using hmem
    rw [hc] at this
    cases this
  rcases markLoop_spec t allPrincipleIds oracleScores hnodup hacc with ⟨ha, hb, hc⟩
  constructor
  · intro pid hpid
    by_cases happ : (applicableIdsFor t).contains pid = true
    · have hmemk : pid ∈ oracleScores.map Prod.fst := by
        rw [hkeys]
        simpa using happ
      rcases Option.isSome_iff_exists.mp (lookup_isSome_of_mem_keys hmemk) with
        ⟨s, hs⟩
      refine ⟨s, ?_, Or.inl ⟨happ, hs⟩⟩
      rw [hmark, hb pid hmemk, hs]
    · have happf : (applicableIdsFor t).contains pid = false := by
        simpa using happ
      exact ⟨notApplicableScore t, by rw [hmark, hc pid hpid happf], Or.inr ⟨happf, rfl⟩⟩
  · calc (markNonApplicable t oracleScores).length
        = ((markNonApplicable t oracleScores).map Prod.fst).length :=
          (List.length_map _ _).symm
      _ = (oracleScores.map Prod.fst ++
            allPrincipleIds.filter
              (fun pid => !(applicableIdsFor t).contains pid)).length := by
          rw [hmark, ha]
      _ = (applicableIdsFor t).length +
            (allPrincipleIds.filter
              (fun pid => !(applicableIdsFor t).contains pid)).length := by
          rw [List.length_append, hkeys]
      _ = allPrincipleIds.length := by cases t <;> decide

theorem analyzeResponse_complete_witness :
    (([("cognitive-load-theory", ⟨3, "visible pacing", Confidence.high, false⟩),
        ("growth-mindset", ⟨2, "little framing", Confidence.medium, false⟩),
        ("self-efficacy", ⟨4, "early wins", Confidence.high, false⟩),
        ("metacognition", ⟨1, "absent", Confidence.low, false⟩)] :
          List (String × AIScore)).map Prod.fst =
      applicableIdsFor SectionType.preQuiz) ∧
    (markNonApplicable SectionType.preQuiz
        [("cognitive-load-theory", ⟨3, "visible pacing", Confidence.high, false⟩),
          ("growth-mindset", ⟨2, "little framing", Confidence.medium, false⟩),
          ("self-efficacy", ⟨4, "early wins", Confidence.high, false⟩),
          ("metacognition", ⟨1, "absent", Confidence.low, false⟩)]).length =
      allPrincipleIds.length :=
  ⟨by decide,
    (analyzeResponse_complete SectionType.preQuiz
      [("cognitive-load-theory", ⟨3, "visible pacing", Confidence.high, false⟩),
        ("growth-mindset", ⟨2, "little framing", Confidence.medium, false⟩),
        ("self-efficacy", ⟨4, "early wins", Confidence.high, false⟩),
        ("metacognition", ⟨1, "absent", Confidence.low, false⟩)]
      (by decide)).2⟩

end LearningAudit
